import Mathlib

/-!
SceneManager: texture registry, material registry and shader-state dispatch.

A shallow embedding of `Source/SceneManager.cpp`.

* C++ member functions become functions on an explicit `SceneManager` state.
* The OpenGL context is an explicit `GLState` (allocated texture names plus the
  trace of calls issued); the shader interface is a recording double
  (`ShaderManager`, the trace of uniform writes).
* Undefined behaviour (indexing the fixed texture table outside its bounds,
  dereferencing a null `m_pShaderManager`) is the result `none`.
* A loop is a recursive function whose first argument bounds the number of
  evaluations of the loop condition; each member function passes a bound that
  is always enough, and the theorems establish results of the form `some _`.
* `RenderScene` is the sequence of calls its body issues, in program order
  (`SceneCall`); `runCalls` runs such a sequence on the scene manager.
* `float` values are only stored and forwarded by the registry and dispatcher
  code, so the scalar type is a parameter `F`.
-/

set_option autoImplicit false

namespace Scene3D

/-! ## Data model -/

/-- The type `glm::vec2`. -/
structure Vec2 (F : Type) where
  x : F
  y : F
  deriving DecidableEq, Repr

/-- The type `glm::vec3`. -/
structure Vec3 (F : Type) where
  x : F
  y : F
  z : F
  deriving DecidableEq, Repr

/-- The type `glm::vec4` (components `r g b a`). -/
structure Vec4 (F : Type) where
  r : F
  g : F
  b : F
  a : F
  deriving DecidableEq, Repr

/-- The type `glm::mat4`, as the mathematical matrix it denotes (entry `M i j` is GLM's
`m[j][i]`, GLM being column-major). -/
abbrev Mat4 (F : Type) := Matrix (Fin 4) (Fin 4) F

/-- One slot of `m_textureIDs`: the tag and the GL texture name (`GLuint`). -/
structure TEXTURE_INFO where
  tag : String
  ID : Nat
  deriving DecidableEq, Repr

/-- The fields of `OBJECT_MATERIAL` that `SceneManager.cpp` reads or writes. -/
structure OBJECT_MATERIAL (F : Type) where
  diffuseColor : Vec3 F
  specularColor : Vec3 F
  shininess : F
  tag : String
  deriving DecidableEq, Repr

/-- A call on the shader interface, as a recording double sees it. -/
inductive ShaderCall (F : Type) where
  | setMat4Value (name : String) (value : Mat4 F)
  | setIntValue (name : String) (value : Int)
  | setBoolValue (name : String) (value : Bool)
  | setFloatValue (name : String) (value : F)
  | setVec2Value (name : String) (value : Vec2 F)
  | setVec3Value (name : String) (value : Vec3 F)
  | setVec4Value (name : String) (value : Vec4 F)
  | setSampler2DValue (name : String) (value : Int)

/-- Modelled from the spec: the `ShaderManager` class (its source is not part of
`SceneManager.cpp`) is a "uniform-setting interface" with "named-uniform
setters for scalar float, int/bool, 2/3/4-component vectors, and 4x4 matrices,
plus a sampler-index setter", observed through "a test double shader interface
recording calls". The state is the sequence of calls received, oldest first. -/
structure ShaderManager (F : Type) where
  calls : List (ShaderCall F)

/-- The recording double receives one more call. -/
def ShaderManager.record {F : Type} (sm : ShaderManager F) (c : ShaderCall F) :
    ShaderManager F :=
  { calls := sm.calls ++ [c] }

/-- A call on the OpenGL texture API. Texture units are recorded by index `i`
for the enum `GL_TEXTURE0 + i`. -/
inductive GLCall where
  | genTextures (name : Nat)
  | bindTexture2D (name : Nat)
  | activeTexture (unit : Nat)
  | texParameteri (pname : String) (param : String)
  | texImage2D (internalFormat : String) (width : Int) (height : Int) (format : String)
  | generateMipmap
  deriving DecidableEq, Repr

/-- Explicit model of the GL texture state: the set of allocated texture names
and the trace of texture calls issued so far, oldest first. -/
structure GLState where
  textureNames : List Nat
  calls : List GLCall
  deriving DecidableEq, Repr

/-- The state of a `SceneManager` object. `m_pShaderManager = none` is the null
pointer. `m_textureIDs` is the fixed-size table declared in the header; its
length is the table's capacity (16 slots according to the spec) and never
changes. -/
structure SceneManager (F : Type) where
  m_pShaderManager : Option (ShaderManager F)
  m_textureIDs : List TEXTURE_INFO
  m_loadedTextures : Int
  m_objectMaterials : List (OBJECT_MATERIAL F)

/-- Conversion of a `GLuint` to `int` (two's complement, 32 bits). -/
def toInt32 (n : Nat) : Int :=
  if n % 2 ^ 32 < 2 ^ 31 then ((n % 2 ^ 32 : Nat) : Int)
  else ((n % 2 ^ 32 : Nat) : Int) - 2 ^ 32

/-- Conversion of an `int` to `GLuint`. -/
def toUInt32 (i : Int) : Nat := (i % 2 ^ 32).toNat

/-! ## Texture registry lookups -/

/-- The `while` loop of `FindTextureID`; the first argument bounds the number of
evaluations of the loop condition. -/
def FindTextureID.loop {F : Type} (s : SceneManager F) (tag : String) :
    Nat → Int → Nat → Bool → Option Int
  | 0, _, _, _ => none
  | fuel + 1, textureID, index, bFound =>
    if (index : Int) < s.m_loadedTextures ∧ bFound = false then
      match s.m_textureIDs[index]? with
      | none => none
      | some e =>
        if e.tag = tag then
          FindTextureID.loop s tag fuel (toInt32 e.ID) index true
        else
          FindTextureID.loop s tag fuel textureID (index + 1) bFound
    else some textureID

/-- The function `SceneManager::FindTextureID`. -/
def FindTextureID {F : Type} (s : SceneManager F) (tag : String) : Option Int :=
  FindTextureID.loop s tag (s.m_loadedTextures.toNat + 1) (-1) 0 false

/-- The `while` loop of `FindTextureSlot`. -/
def FindTextureSlot.loop {F : Type} (s : SceneManager F) (tag : String) :
    Nat → Int → Nat → Bool → Option Int
  | 0, _, _, _ => none
  | fuel + 1, textureSlot, index, bFound =>
    if (index : Int) < s.m_loadedTextures ∧ bFound = false then
      match s.m_textureIDs[index]? with
      | none => none
      | some e =>
        if e.tag = tag then
          FindTextureSlot.loop s tag fuel (index : Int) index true
        else
          FindTextureSlot.loop s tag fuel textureSlot (index + 1) bFound
    else some textureSlot

/-- The function `SceneManager::FindTextureSlot`. -/
def FindTextureSlot {F : Type} (s : SceneManager F) (tag : String) : Option Int :=
  FindTextureSlot.loop s tag (s.m_loadedTextures.toNat + 1) (-1) 0 false

/-! ## Material registry lookup -/

/-- The `while` loop of `FindMaterial`; `material` is the caller's object the
reference parameter designates. -/
def FindMaterial.loop {F : Type} (mats : List (OBJECT_MATERIAL F)) (tag : String) :
    Nat → Nat → Bool → OBJECT_MATERIAL F → Option (OBJECT_MATERIAL F)
  | 0, _, _, _ => none
  | fuel + 1, index, bFound, material =>
    if index < mats.length ∧ bFound = false then
      match mats[index]? with
      | none => none
      | some m =>
        if m.tag = tag then
          FindMaterial.loop mats tag fuel index true
            { material with
              diffuseColor := m.diffuseColor
              specularColor := m.specularColor
              shininess := m.shininess }
        else
          FindMaterial.loop mats tag fuel (index + 1) bFound material
    else some material

/-- The function `SceneManager::FindMaterial`: the returned pair is the `bool` result and the
final contents of the reference parameter `material`. -/
def FindMaterial {F : Type} (s : SceneManager F) (tag : String)
    (material : OBJECT_MATERIAL F) : Option (Bool × OBJECT_MATERIAL F) :=
  if s.m_objectMaterials.length = 0 then some (false, material)
  else
    match FindMaterial.loop s.m_objectMaterials tag (s.m_objectMaterials.length + 1)
        0 false material with
    | none => none
    | some m => some (true, m)

/-! ## OpenGL texture calls -/

/-- Result of `stbi_load` on a readable image: the reported dimensions and
channel count. -/
structure Image where
  width : Int
  height : Int
  colorChannels : Int
  deriving DecidableEq, Repr

/-- The function `glGenTextures(1, &id)`: the driver picks the name `gen names` given the
names in use, and marks it as in use. -/
def glGenTextures (gen : List Nat → Nat) (gl : GLState) : Nat × GLState :=
  (gen gl.textureNames,
    { textureNames := gen gl.textureNames :: gl.textureNames
      calls := gl.calls ++ [GLCall.genTextures (gen gl.textureNames)] })

/-- Any other texture call: it is appended to the trace. -/
def GLState.issue (gl : GLState) (c : GLCall) : GLState :=
  { gl with calls := gl.calls ++ [c] }

/-- The contract of `glGenTextures`: the returned name is non-zero and was not
in use. -/
def FreshNames (gen : List Nat → Nat) : Prop :=
  ∀ names : List Nat, gen names ∉ names ∧ gen names ≠ 0

/-- A driver that hands out one more than the largest name in use. -/
def nextName (names : List Nat) : Nat := names.foldr max 0 + 1

/-- Texture-unit state a trace of GL calls leads to: the active unit and the
2D texture bound to each unit. -/
def GLCall.step (st : Nat × (Nat → Nat)) : GLCall → Nat × (Nat → Nat)
  | GLCall.activeTexture u => (u, st.2)
  | GLCall.bindTexture2D n => (st.1, Function.update st.2 st.1 n)
  | _ => st

/-- The unit state after `calls`, starting from the initial GL state (unit 0
active, nothing bound). -/
def unitState (calls : List GLCall) : Nat × (Nat → Nat) :=
  calls.foldl GLCall.step (0, fun _ => 0)

/-- The texture name bound to `GL_TEXTURE_2D` of texture unit `unit` after
`calls`. -/
def boundTexture2D (calls : List GLCall) (unit : Nat) : Nat :=
  (unitState calls).2 unit

/-! ## Texture registry updates -/

/-- The function `SceneManager::CreateGLTexture`. `stbi_load` is the image
decoder applied to the file system (`none`: the file could not be read or
decoded) and `gen` the driver's choice of texture names. `register` is the part
of the body after the upload of the pixel data; the two assignments to slot
`m_textureIDs[m_loadedTextures]` are one `List.set`, and the result is `none`
exactly when that slot lies outside the table. -/
def CreateGLTexture {F : Type} (stbi_load : String → Option Image)
    (gen : List Nat → Nat) (s : SceneManager F) (gl : GLState)
    (filename : String) (tag : String) : Option (Bool × SceneManager F × GLState) :=
  match stbi_load filename with
  | some image =>
    let (textureID, gl) := glGenTextures gen gl
    let gl := gl.issue (GLCall.bindTexture2D textureID)
    let gl := gl.issue (GLCall.texParameteri "GL_TEXTURE_WRAP_S" "GL_REPEAT")
    let gl := gl.issue (GLCall.texParameteri "GL_TEXTURE_WRAP_T" "GL_REPEAT")
    let gl := gl.issue (GLCall.texParameteri "GL_TEXTURE_MIN_FILTER" "GL_LINEAR")
    let gl := gl.issue (GLCall.texParameteri "GL_TEXTURE_MAG_FILTER" "GL_LINEAR")
    let register := fun (gl : GLState) =>
      let gl := gl.issue GLCall.generateMipmap
      let gl := gl.issue (GLCall.bindTexture2D 0)
      if 0 ≤ s.m_loadedTextures ∧ s.m_loadedTextures.toNat < s.m_textureIDs.length then
        some (true,
          { s with
            m_textureIDs :=
              s.m_textureIDs.set s.m_loadedTextures.toNat { tag := tag, ID := textureID }
            m_loadedTextures := s.m_loadedTextures + 1 },
          gl)
      else none
    if image.colorChannels = 3 then
      register (gl.issue (GLCall.texImage2D "GL_RGB8" image.width image.height "GL_RGB"))
    else if image.colorChannels = 4 then
      register (gl.issue (GLCall.texImage2D "GL_RGBA8" image.width image.height "GL_RGBA"))
    else some (false, s, gl)
  | none => some (false, s, gl)

/-- The `for` loop of `BindGLTextures`. -/
def BindGLTextures.loop {F : Type} (s : SceneManager F) :
    Nat → Nat → GLState → Option GLState
  | 0, _, _ => none
  | fuel + 1, i, gl =>
    if (i : Int) < s.m_loadedTextures then
      match s.m_textureIDs[i]? with
      | none => none
      | some e =>
        BindGLTextures.loop s fuel (i + 1)
          ((gl.issue (GLCall.activeTexture i)).issue (GLCall.bindTexture2D e.ID))
    else some gl

/-- The function `SceneManager::BindGLTextures`. -/
def BindGLTextures {F : Type} (s : SceneManager F) (gl : GLState) : Option GLState :=
  BindGLTextures.loop s (s.m_loadedTextures.toNat + 1) 0 gl

/-! ## Shader-state dispatch -/

/-- The uniform name a shader call writes. -/
def ShaderCall.name {F : Type} : ShaderCall F → String
  | setMat4Value n _ => n
  | setIntValue n _ => n
  | setBoolValue n _ => n
  | setFloatValue n _ => n
  | setVec2Value n _ => n
  | setVec3Value n _ => n
  | setVec4Value n _ => n
  | setSampler2DValue n _ => n

/-- Modelled from the spec: a uniform is "a named value passed from host code
into the shader program"; the value it holds is the one of the most recent
write to that name, if any. -/
def ShaderManager.uniform {F : Type} (sm : ShaderManager F) (name : String) :
    Option (ShaderCall F) :=
  sm.calls.reverse.find? (fun c => c.name = name)

/-- The function `SceneManager::SetShaderColor`; `false` is passed to `setIntValue` as 0. -/
def SetShaderColor {F : Type} (s : SceneManager F)
    (redColorValue greenColorValue blueColorValue alphaValue : F) : SceneManager F :=
  let currentColor : Vec4 F :=
    { r := redColorValue, g := greenColorValue, b := blueColorValue, a := alphaValue }
  match s.m_pShaderManager with
  | some sm =>
    let sm := sm.record (ShaderCall.setIntValue "bUseTexture" 0)
    let sm := sm.record (ShaderCall.setVec4Value "objectColor" currentColor)
    { s with m_pShaderManager := some sm }
  | none => s

/-- The function `SceneManager::SetShaderTexture`; `true` is passed to `setIntValue` as 1. -/
def SetShaderTexture {F : Type} (s : SceneManager F) (textureTag : String) :
    Option (SceneManager F) :=
  match s.m_pShaderManager with
  | some sm =>
    let sm := sm.record (ShaderCall.setIntValue "bUseTexture" 1)
    match FindTextureSlot s textureTag with
    | none => none
    | some textureID =>
      let sm := sm.record (ShaderCall.setSampler2DValue "objectTexture" textureID)
      some { s with m_pShaderManager := some sm }
  | none => some s

/-- The function `SceneManager::SetTextureUVScale`. -/
def SetTextureUVScale {F : Type} (s : SceneManager F) (u v : F) : SceneManager F :=
  match s.m_pShaderManager with
  | some sm =>
    let sm := sm.record (ShaderCall.setVec2Value "UVscale" { x := u, y := v })
    { s with m_pShaderManager := some sm }
  | none => s

/-- The function `SceneManager::SetShaderMaterial`. `uninit` is the indeterminate content of
the local `OBJECT_MATERIAL material;` before `FindMaterial` is called. The
shader pointer is dereferenced without a null test. -/
def SetShaderMaterial {F : Type} (s : SceneManager F) (materialTag : String)
    (uninit : OBJECT_MATERIAL F) : Option (SceneManager F) :=
  if s.m_objectMaterials.length > 0 then
    match FindMaterial s materialTag uninit with
    | none => none
    | some (bReturn, material) =>
      if bReturn = true then
        match s.m_pShaderManager with
        | none => none
        | some sm =>
          let sm := sm.record
            (ShaderCall.setVec3Value "material.diffuseColor" material.diffuseColor)
          let sm := sm.record
            (ShaderCall.setVec3Value "material.specularColor" material.specularColor)
          let sm := sm.record
            (ShaderCall.setFloatValue "material.shininess" material.shininess)
          some { s with m_pShaderManager := some sm }
      else some s
  else some s

/-! ## Model matrix -/

/-- The real functions `glm::radians`, `cos` and `sin` over the scalar type. -/
structure Trig (F : Type) where
  radians : F → F
  cos : F → F
  sin : F → F

/-- The function `glm::scale(v)`: the diagonal matrix of `v`. -/
def glm_scale {F : Type} [CommRing F] (v : Vec3 F) : Mat4 F :=
  !![v.x, 0, 0, 0;
     0, v.y, 0, 0;
     0, 0, v.z, 0;
     0, 0, 0, 1]

/-- The function `glm::translate(v)`: the identity with `v` as fourth column. -/
def glm_translate {F : Type} [CommRing F] (v : Vec3 F) : Mat4 F :=
  !![1, 0, 0, v.x;
     0, 1, 0, v.y;
     0, 0, 1, v.z;
     0, 0, 0, 1]

/-- The function `glm::rotate(angle, axis)` as GLM computes it from `c = cos angle`,
`s = sin angle` and `temp = (1 - c) * axis`, for an axis of unit length (the
three call sites pass the coordinate axes, which `normalize` leaves as they
are). -/
def glm_rotate {F : Type} [CommRing F] (T : Trig F) (angle : F) (axis : Vec3 F) : Mat4 F :=
  let c := T.cos angle
  let s := T.sin angle
  let temp : Vec3 F := { x := (1 - c) * axis.x, y := (1 - c) * axis.y, z := (1 - c) * axis.z }
  !![c + temp.x * axis.x, temp.y * axis.x - s * axis.z, temp.z * axis.x + s * axis.y, 0;
     temp.x * axis.y + s * axis.z, c + temp.y * axis.y, temp.z * axis.y - s * axis.x, 0;
     temp.x * axis.z - s * axis.y, temp.y * axis.z + s * axis.x, c + temp.z * axis.z, 0;
     0, 0, 0, 1]

/-- The matrix `modelView` that `SetTransformations` computes. -/
def modelView {F : Type} [CommRing F] (T : Trig F) (scaleXYZ : Vec3 F)
    (XrotationDegrees YrotationDegrees ZrotationDegrees : F) (positionXYZ : Vec3 F) :
    Mat4 F :=
  let scale := glm_scale scaleXYZ
  let rotationX := glm_rotate T (T.radians XrotationDegrees) { x := 1, y := 0, z := 0 }
  let rotationY := glm_rotate T (T.radians YrotationDegrees) { x := 0, y := 1, z := 0 }
  let rotationZ := glm_rotate T (T.radians ZrotationDegrees) { x := 0, y := 0, z := 1 }
  let translation := glm_translate positionXYZ
  translation * rotationZ * rotationY * rotationX * scale

/-- The function `SceneManager::SetTransformations`. -/
def SetTransformations {F : Type} [CommRing F] (T : Trig F) (s : SceneManager F)
    (scaleXYZ : Vec3 F) (XrotationDegrees YrotationDegrees ZrotationDegrees : F)
    (positionXYZ : Vec3 F) : SceneManager F :=
  let m := modelView T scaleXYZ XrotationDegrees YrotationDegrees ZrotationDegrees positionXYZ
  match s.m_pShaderManager with
  | some sm =>
    let sm := sm.record (ShaderCall.setMat4Value "model" m)
    { s with m_pShaderManager := some sm }
  | none => s

/-- The image of the object-space point `p` under the 4x4 matrix `m`: the first
three components of `m * (p, 1)`. -/
def transformPoint {F : Type} [CommRing F] (m : Mat4 F) (p : Vec3 F) : Vec3 F :=
  let v := m.mulVec ![p.x, p.y, p.z, 1]
  { x := v 0, y := v 1, z := v 2 }

/-! ## Texture teardown and scene preparation -/

/-- The `for` loop of `DestroyGLTextures`: `glGenTextures(1, &m_textureIDs[i].ID)`
stores the generated name in the `ID` field of slot `i`. -/
def DestroyGLTextures.loop {F : Type} (gen : List Nat → Nat) :
    Nat → Nat → SceneManager F → GLState → Option (SceneManager F × GLState)
  | 0, _, _, _ => none
  | fuel + 1, i, s, gl =>
    if (i : Int) < s.m_loadedTextures then
      match s.m_textureIDs[i]? with
      | none => none
      | some e =>
        let (name, gl) := glGenTextures gen gl
        DestroyGLTextures.loop gen fuel (i + 1)
          { s with m_textureIDs := s.m_textureIDs.set i { e with ID := name } } gl
    else some (s, gl)

/-- The function `SceneManager::DestroyGLTextures`. -/
def DestroyGLTextures {F : Type} (gen : List Nat → Nat) (s : SceneManager F)
    (gl : GLState) : Option (SceneManager F × GLState) :=
  DestroyGLTextures.loop gen (s.m_loadedTextures.toNat + 1) 0 s gl

/-- A sequence of `CreateGLTexture(filename, tag)` calls, issued one after the
other; as in `LoadSceneTextures`, the `bool` results are not acted upon. -/
def createAll {F : Type} (stbi_load : String → Option Image) (gen : List Nat → Nat) :
    List (String × String) → SceneManager F → GLState → Option (SceneManager F × GLState)
  | [], s, gl => some (s, gl)
  | (filename, tag) :: rest, s, gl =>
    match CreateGLTexture stbi_load gen s gl filename tag with
    | none => none
    | some (_, s, gl) => createAll stbi_load gen rest s gl

/-- The function `SceneManager::LoadSceneTextures`: five loads, each result
assigned to `bReturn` and not looked at, then `BindGLTextures`. -/
def LoadSceneTextures {F : Type} (stbi_load : String → Option Image)
    (gen : List Nat → Nat) (s : SceneManager F) (gl : GLState) :
    Option (SceneManager F × GLState) :=
  match CreateGLTexture stbi_load gen s gl "textures/street.jpg" "street" with
  | none => none
  | some (_, s, gl) =>
  match CreateGLTexture stbi_load gen s gl "textures/blackmat.jpg" "bmat" with
  | none => none
  | some (_, s, gl) =>
  match CreateGLTexture stbi_load gen s gl "textures/wall.jpg" "wall" with
  | none => none
  | some (_, s, gl) =>
  match CreateGLTexture stbi_load gen s gl "textures/lamp.jpg" "lamp" with
  | none => none
  | some (_, s, gl) =>
  match CreateGLTexture stbi_load gen s gl "textures/wood.jpg" "wood" with
  | none => none
  | some (_, s, gl) =>
  match BindGLTextures s gl with
  | none => none
  | some gl => some (s, gl)

/-- The function `SceneManager::DefineObjectMaterials`: four `push_back`s. -/
def DefineObjectMaterials {F : Type} [Field F] (s : SceneManager F) : SceneManager F :=
  let LampMaterial : OBJECT_MATERIAL F :=
    { diffuseColor := ⟨0.1, 0.1, 0.1⟩, specularColor := ⟨0.8, 0.8, 0.8⟩,
      shininess := 64.0, tag := "Lamp" }
  let s := { s with m_objectMaterials := s.m_objectMaterials ++ [LampMaterial] }
  let BrickMaterial : OBJECT_MATERIAL F :=
    { diffuseColor := ⟨0.5, 0.2, 0.1⟩, specularColor := ⟨0.2, 0.2, 0.2⟩,
      shininess := 16.0, tag := "Brick" }
  let s := { s with m_objectMaterials := s.m_objectMaterials ++ [BrickMaterial] }
  let GroundMaterial : OBJECT_MATERIAL F :=
    { diffuseColor := ⟨0.1, 0.1, 0.1⟩, specularColor := ⟨0.1, 0.1, 0.1⟩,
      shininess := 8.0, tag := "Ground" }
  let s := { s with m_objectMaterials := s.m_objectMaterials ++ [GroundMaterial] }
  let WoodMaterial : OBJECT_MATERIAL F :=
    { diffuseColor := ⟨0.55, 0.27, 0.07⟩, specularColor := ⟨0.2, 0.2, 0.2⟩,
      shininess := 32.0, tag := "Wood" }
  { s with m_objectMaterials := s.m_objectMaterials ++ [WoodMaterial] }

/-! ## Rendering -/

/-- A call that `RenderScene` issues: on the scene manager itself or, for the
four `Draw...Mesh` calls, on `m_basicMeshes`. -/
inductive SceneCall (F : Type) where
  | SetTransformations (scaleXYZ : Vec3 F) (XrotationDegrees YrotationDegrees
      ZrotationDegrees : F) (positionXYZ : Vec3 F)
  | SetShaderColor (redColorValue greenColorValue blueColorValue alphaValue : F)
  | SetShaderTexture (textureTag : String)
  | SetTextureUVScale (u v : F)
  | SetShaderMaterial (materialTag : String)
  | DrawPlaneMesh
  | DrawBoxMesh
  | DrawCylinderMesh
  | DrawSphereMesh

/-- One iteration of the `for` loop of `RenderScene` that draws the decorative
arm, for the loop counter `i`: the texture is set before the transformation. -/
def RenderScene.armSegment {F : Type} [Field F] (T : Trig F) (degrees : F → F)
    (i : Nat) : List (SceneCall F) :=
  let numSegments : Nat := 50
  let radius : F := 1.2
  let center : Vec3 F := ⟨-1.7, 6.1, 0.0⟩
  let angle : F := T.radians (180.0 * ((i : F) / (numSegments : F)))
  let scaleXYZ : Vec3 F := ⟨0.05, 0.2, 0.05⟩
  let positionXYZ : Vec3 F :=
    ⟨center.x + radius * T.cos angle, center.y + radius * T.sin angle, center.z⟩
  [ SceneCall.SetShaderTexture "blackmat",
    SceneCall.SetTransformations scaleXYZ 0.0 (degrees angle) 90.0 positionXYZ,
    SceneCall.DrawCylinderMesh ]

/-- The function `SceneManager::RenderScene`, as the sequence of calls it issues,
in program order. The body is straight-line code around one `for` loop with
`i = 0, ..., numSegments` (51 iterations); `degrees` is `glm::degrees`. -/
def RenderScene {F : Type} [Field F] (T : Trig F) (degrees : F → F) :
    List (SceneCall F) :=
  [
    -- floor
    SceneCall.SetTransformations ⟨10.0, -1.0, 8.0⟩ 0.0 0.0 0.0 ⟨0.0, -0.1, 4.0⟩,
    SceneCall.SetShaderTexture "street",
    SceneCall.SetShaderMaterial "Ground",
    SceneCall.DrawPlaneMesh,
    -- wall
    SceneCall.SetTransformations ⟨10.0, 2.0, 6.0⟩ 90.0 0.0 0.0 ⟨0.0, 5.8, -4.0⟩,
    SceneCall.SetShaderTexture "wall",
    SceneCall.SetShaderMaterial "Brick",
    SceneCall.DrawPlaneMesh,
    -- lamp head: the material is set before the texture
    SceneCall.SetTransformations ⟨-0.5, 0.5, 0.5⟩ 0.0 0.0 0.0 ⟨-0.6, 5.5, 0.0⟩,
    SceneCall.SetShaderMaterial "Lamp",
    SceneCall.SetShaderTexture "lamp",
    SceneCall.DrawSphereMesh,
    -- lamp base
    SceneCall.SetTransformations ⟨0.6, 0.3, 0.6⟩ 0.0 90.0 0.0 ⟨-3.0, 0.15, 0.0⟩,
    SceneCall.SetShaderTexture "bmat",
    SceneCall.DrawCylinderMesh,
    -- lamp post
    SceneCall.SetTransformations ⟨0.2, 6.0, 0.2⟩ 0.0 90.0 0.0 ⟨-3.0, 0.15, 0.0⟩,
    SceneCall.SetShaderTexture "bmat",
    SceneCall.DrawCylinderMesh,
    -- decorative ring at the top of the post
    SceneCall.SetTransformations ⟨0.3, 0.3, 0.3⟩ 0.0 90.0 0.0 ⟨-3.0, 5.0, 0.0⟩,
    SceneCall.SetShaderTexture "blackmat",
    SceneCall.DrawCylinderMesh,
    -- lamp holder
    SceneCall.SetTransformations ⟨0.3, 0.3, 0.3⟩ 0.0 90.0 0.0 ⟨-0.6, 6.0, 0.0⟩,
    SceneCall.SetShaderTexture "blackmat",
    SceneCall.DrawCylinderMesh ] ++
  (List.range (50 + 1)).flatMap (RenderScene.armSegment T degrees) ++
  [
    -- bench seat, part 1
    SceneCall.SetTransformations ⟨5.0, 0.1, 0.2⟩ 0.0 0.0 0.0 ⟨2.0, 1.2, 1.0⟩,
    SceneCall.SetShaderTexture "wood",
    SceneCall.SetShaderMaterial "Wood",
    SceneCall.DrawBoxMesh,
    -- bench seat, part 2
    SceneCall.SetTransformations ⟨5.0, 0.1, 0.2⟩ 45.0 0.0 0.0 ⟨2.0, 1.4, 0.77⟩,
    SceneCall.SetShaderTexture "wood",
    SceneCall.SetShaderMaterial "Wood",
    SceneCall.DrawBoxMesh,
    -- bench seat, part 3
    SceneCall.SetTransformations ⟨5.0, 0.1, 0.2⟩ 0.0 0.0 0.0 ⟨2.0, 1.2, 1.3⟩,
    SceneCall.SetShaderTexture "wood",
    SceneCall.SetShaderMaterial "Wood",
    SceneCall.DrawBoxMesh,
    -- bench seat, part 4
    SceneCall.SetTransformations ⟨5.0, 0.1, 0.2⟩ 0.0 0.0 0.0 ⟨2.0, 1.2, 1.6⟩,
    SceneCall.SetShaderTexture "wood",
    SceneCall.SetShaderMaterial "Wood",
    SceneCall.DrawBoxMesh,
    -- bench seat, part 5
    SceneCall.SetTransformations ⟨5.0, 0.1, 0.2⟩ 45.0 0.0 0.0 ⟨2.0, 1.1, 1.9⟩,
    SceneCall.SetShaderTexture "wood",
    SceneCall.SetShaderMaterial "Wood",
    SceneCall.DrawBoxMesh,
    -- bench legs and handlers
    SceneCall.SetTransformations ⟨0.1, 1.0, 0.1⟩ 90.0 0.0 0.0 ⟨-0.3, 1.1, 1.4⟩,
    SceneCall.SetShaderTexture "bmat",
    SceneCall.SetShaderMaterial "Lamp",
    SceneCall.DrawBoxMesh,
    -- legs support
    SceneCall.SetTransformations ⟨0.1, 1.2, 0.1⟩ 180.0 0.0 0.0 ⟨-0.3, 0.5, 1.7⟩,
    SceneCall.SetShaderTexture "bmat",
    SceneCall.SetShaderMaterial "Lamp",
    SceneCall.DrawBoxMesh,
    -- legs 1
    SceneCall.SetTransformations ⟨0.1, 1.4, 0.1⟩ 30.0 0.0 0.0 ⟨-0.3, 0.5, 0.8⟩,
    SceneCall.SetShaderTexture "bmat",
    SceneCall.SetShaderMaterial "Lamp",
    SceneCall.DrawBoxMesh,
    -- legs 3
    SceneCall.SetTransformations ⟨0.1, 1.0, 0.1⟩ 90.0 0.0 0.0 ⟨4.3, 1.1, 1.4⟩,
    SceneCall.SetShaderTexture "bmat",
    SceneCall.SetShaderMaterial "Lamp",
    SceneCall.DrawBoxMesh,
    -- legs support
    SceneCall.SetTransformations ⟨0.1, 1.2, 0.1⟩ 180.0 0.0 0.0 ⟨4.3, 0.5, 1.7⟩,
    SceneCall.SetShaderTexture "bmat",
    SceneCall.SetShaderMaterial "Lamp",
    SceneCall.DrawBoxMesh,
    -- legs 4
    SceneCall.SetTransformations ⟨0.1, 1.4, 0.1⟩ 30.0 0.0 0.0 ⟨4.3, 0.5, 0.8⟩,
    SceneCall.SetShaderTexture "bmat",
    SceneCall.SetShaderMaterial "Lamp",
    SceneCall.DrawBoxMesh,
    -- upper handler
    SceneCall.SetTransformations ⟨0.1, 0.7, 0.1⟩ (-40.0) 0.0 0.0 ⟨-0.3, 1.2, 0.8⟩,
    SceneCall.SetShaderTexture "bmat",
    SceneCall.SetShaderMaterial "Lamp",
    SceneCall.DrawBoxMesh,
    -- upper handler
    SceneCall.SetTransformations ⟨0.1, 0.7, 0.1⟩ (-40.0) 0.0 0.0 ⟨4.3, 1.2, 0.8⟩,
    SceneCall.SetShaderTexture "bmat",
    SceneCall.SetShaderMaterial "Lamp",
    SceneCall.DrawBoxMesh,
    -- back handler
    SceneCall.SetTransformations ⟨0.1, 0.8, 0.1⟩ 175.0 0.0 0.0 ⟨-0.3, 1.8, 0.57⟩,
    SceneCall.SetShaderTexture "bmat",
    SceneCall.SetShaderMaterial "Lamp",
    SceneCall.DrawBoxMesh,
    -- back handler
    SceneCall.SetTransformations ⟨0.1, 0.8, 0.1⟩ 175.0 0.0 0.0 ⟨4.3, 1.8, 0.57⟩,
    SceneCall.SetShaderTexture "bmat",
    SceneCall.SetShaderMaterial "Lamp",
    SceneCall.DrawBoxMesh,
    -- last upper part of the seat
    SceneCall.SetTransformations ⟨5.0, 0.1, 0.9⟩ 85.0 0.0 0.0 ⟨2.0, 2.2, 0.64⟩,
    SceneCall.SetShaderTexture "wood",
    SceneCall.SetShaderMaterial "Wood",
    SceneCall.DrawBoxMesh ]

/-- The effect of one call of `RenderScene` on the scene manager. Drawing a mesh
reads the shader state and changes nothing in the scene manager. `uninit` is the
content of the uninitialised local of `SetShaderMaterial`. -/
def SceneCall.run {F : Type} [CommRing F] (T : Trig F) (uninit : OBJECT_MATERIAL F)
    (s : SceneManager F) : SceneCall F → Option (SceneManager F)
  | SceneCall.SetTransformations scaleXYZ rx ry rz positionXYZ =>
    some (Scene3D.SetTransformations T s scaleXYZ rx ry rz positionXYZ)
  | SceneCall.SetShaderColor r g b a => some (Scene3D.SetShaderColor s r g b a)
  | SceneCall.SetShaderTexture textureTag => Scene3D.SetShaderTexture s textureTag
  | SceneCall.SetTextureUVScale u v => some (Scene3D.SetTextureUVScale s u v)
  | SceneCall.SetShaderMaterial materialTag =>
    Scene3D.SetShaderMaterial s materialTag uninit
  | SceneCall.DrawPlaneMesh => some s
  | SceneCall.DrawBoxMesh => some s
  | SceneCall.DrawCylinderMesh => some s
  | SceneCall.DrawSphereMesh => some s

/-- The calls of a sequence run one after the other. -/
def runCalls {F : Type} [CommRing F] (T : Trig F) (uninit : OBJECT_MATERIAL F) :
    List (SceneCall F) → SceneManager F → Option (SceneManager F)
  | [], s => some s
  | c :: rest, s =>
    match c.run T uninit s with
    | none => none
    | some s => runCalls T uninit rest s

/-- The values written to the sampler uniform "objectTexture", oldest first. -/
def samplerWrites {F : Type} (sm : ShaderManager F) : List Int :=
  sm.calls.filterMap fun c =>
    match c with
    | ShaderCall.setSampler2DValue "objectTexture" value => some value
    | _ => none

/-- The tags a sequence of calls passes to `SetShaderTexture`, in call order. -/
def textureTags {F : Type} (calls : List (SceneCall F)) : List String :=
  calls.filterMap fun c =>
    match c with
    | SceneCall.SetShaderTexture textureTag => some textureTag
    | _ => none

/-- The kinds of call the rendering protocol distinguishes. -/
inductive CallKind where
  | modelMatrix
  | textureOrColour
  | material
  | uvScale
  | draw
  deriving DecidableEq, Repr

/-- The kind of a call: `SetTransformations` writes the model matrix,
`SetShaderTexture` and `SetShaderColor` write the texture-or-colour mode,
`SetShaderMaterial` writes the material. -/
def SceneCall.kind {F : Type} : SceneCall F → CallKind
  | SceneCall.SetTransformations _ _ _ _ _ => CallKind.modelMatrix
  | SceneCall.SetShaderColor _ _ _ _ => CallKind.textureOrColour
  | SceneCall.SetShaderTexture _ => CallKind.textureOrColour
  | SceneCall.SetTextureUVScale _ _ => CallKind.uvScale
  | SceneCall.SetShaderMaterial _ => CallKind.material
  | SceneCall.DrawPlaneMesh => CallKind.draw
  | SceneCall.DrawBoxMesh => CallKind.draw
  | SceneCall.DrawCylinderMesh => CallKind.draw
  | SceneCall.DrawSphereMesh => CallKind.draw

/-- Splitting a trace at its draw calls: `pending` holds, newest first, the
calls seen since the previous draw. -/
def drawGroups.go : List CallKind → List CallKind → List (List CallKind)
  | [], _ => []
  | CallKind.draw :: rest, pending => pending.reverse :: drawGroups.go rest []
  | k :: rest, pending => drawGroups.go rest (k :: pending)

/-- For every draw call of a trace, in order, the calls issued since the
previous draw call (or since the start). -/
def drawGroups (trace : List CallKind) : List (List CallKind) :=
  drawGroups.go trace []

/-- The order of calls before a draw as the rendering protocol states it: one
model-matrix write, then one texture-or-colour write, then at most one material
write. -/
def ProtocolOrder (group : List CallKind) : Prop :=
  group = [CallKind.modelMatrix, CallKind.textureOrColour] ∨
  group = [CallKind.modelMatrix, CallKind.textureOrColour, CallKind.material]

instance (group : List CallKind) : Decidable (ProtocolOrder group) := by
  unfold ProtocolOrder
  infer_instance

/-- The content of the calls before a draw, whatever their order: exactly one
model-matrix write, exactly one texture-or-colour write, at most one material
write and nothing else. -/
def ProtocolContent (group : List CallKind) : Prop :=
  group.count CallKind.modelMatrix = 1 ∧
  group.count CallKind.textureOrColour = 1 ∧
  group.count CallKind.material ≤ 1 ∧
  group.count CallKind.uvScale = 0 ∧
  group.count CallKind.draw = 0

instance (group : List CallKind) : Decidable (ProtocolContent group) := by
  unfold ProtocolContent
  infer_instance

/-- The tags of the loaded entries of the texture registry, in slot order. -/
def registeredTags {F : Type} (s : SceneManager F) : List String :=
  (s.m_textureIDs.take s.m_loadedTextures.toNat).map (fun e => e.tag)

/-- The handles of the loaded entries of the texture registry, in slot order. -/
def registeredHandles {F : Type} (s : SceneManager F) : List Nat :=
  (s.m_textureIDs.take s.m_loadedTextures.toNat).map (fun e => e.ID)

/-- The tags of those calls of a load sequence whose image decodes with 3 or 4
channels, in call order. -/
def successfulTags (stbi_load : String → Option Image) :
    List (String × String) → List String
  | [] => []
  | (filename, tag) :: rest =>
    match stbi_load filename with
    | some image =>
      if image.colorChannels = 3 ∨ image.colorChannels = 4 then
        tag :: successfulTags stbi_load rest
      else successfulTags stbi_load rest
    | none => successfulTags stbi_load rest

/-! ## Reference descriptions and sample states -/

/-- The calls expected of `BindGLTextures` for the entries `entries`, the first
of which goes to unit `first`: per entry, in order, the unit is made active and
the entry's handle is bound. -/
def expectedBindings : List TEXTURE_INFO → Nat → List GLCall
  | [], _ => []
  | e :: es, first =>
    GLCall.activeTexture first :: GLCall.bindTexture2D e.ID :: expectedBindings es (first + 1)

/-- A 16-slot table holding three textures, two of them under the tag "b". -/
def sampleScene : SceneManager Int :=
  { m_pShaderManager := some { calls := [] }
    m_textureIDs :=
      [⟨"a", 7⟩, ⟨"b", 9⟩, ⟨"b", 4⟩] ++ List.replicate 13 { tag := "", ID := 0 }
    m_loadedTextures := 3
    m_objectMaterials :=
      [ { diffuseColor := ⟨1, 1, 1⟩, specularColor := ⟨8, 8, 8⟩, shininess := 64, tag := "Lamp" },
        { diffuseColor := ⟨5, 2, 1⟩, specularColor := ⟨2, 2, 2⟩, shininess := 16, tag := "Brick" },
        { diffuseColor := ⟨3, 3, 3⟩, specularColor := ⟨4, 4, 4⟩, shininess := 32, tag := "Lamp" } ] }

/-- The GL state matching `sampleScene`: the three handles are allocated. -/
def sampleGL : GLState := { textureNames := [4, 9, 7], calls := [] }

/-- A 16-slot table with all 16 slots in use. -/
def fullScene : SceneManager Int :=
  { m_pShaderManager := some { calls := [] }
    m_textureIDs :=
      [⟨"t0", 1⟩, ⟨"t1", 2⟩, ⟨"t2", 3⟩, ⟨"t3", 4⟩, ⟨"t4", 5⟩, ⟨"t5", 6⟩, ⟨"t6", 7⟩, ⟨"t7", 8⟩,
       ⟨"t8", 9⟩, ⟨"t9", 10⟩, ⟨"t10", 11⟩, ⟨"t11", 12⟩, ⟨"t12", 13⟩, ⟨"t13", 14⟩,
       ⟨"t14", 15⟩, ⟨"t15", 16⟩]
    m_loadedTextures := 16
    m_objectMaterials := [] }

/-- The GL state matching `fullScene`. -/
def fullGL : GLState :=
  { textureNames := [16, 15, 14, 13, 12, 11, 10, 9, 8, 7, 6, 5, 4, 3, 2, 1], calls := [] }

/-- A file system with one readable RGB image, one readable grey-scale image
and nothing else. -/
def sampleFiles (filename : String) : Option Image :=
  if filename = "textures/wood.jpg" then some { width := 64, height := 32, colorChannels := 3 }
  else if filename = "textures/grey.png" then some { width := 8, height := 8, colorChannels := 1 }
  else none

/-- Componentwise scaling of the point `p` by `s`. -/
def scaleBy {F : Type} [CommRing F] (s p : Vec3 F) : Vec3 F :=
  { x := s.x * p.x, y := s.y * p.y, z := s.z * p.z }

/-- Rotation of `p` about the X axis by `angle`. -/
def rotX {F : Type} [CommRing F] (T : Trig F) (angle : F) (p : Vec3 F) : Vec3 F :=
  { x := p.x
    y := T.cos angle * p.y - T.sin angle * p.z
    z := T.sin angle * p.y + T.cos angle * p.z }

/-- Rotation of `p` about the Y axis by `angle`. -/
def rotY {F : Type} [CommRing F] (T : Trig F) (angle : F) (p : Vec3 F) : Vec3 F :=
  { x := T.cos angle * p.x + T.sin angle * p.z
    y := p.y
    z := T.cos angle * p.z - T.sin angle * p.x }

/-- Rotation of `p` about the Z axis by `angle`. -/
def rotZ {F : Type} [CommRing F] (T : Trig F) (angle : F) (p : Vec3 F) : Vec3 F :=
  { x := T.cos angle * p.x - T.sin angle * p.y
    y := T.sin angle * p.x + T.cos angle * p.y
    z := p.z }

/-- Translation of `p` by `t`. -/
def translateBy {F : Type} [CommRing F] (t p : Vec3 F) : Vec3 F :=
  { x := t.x + p.x, y := t.y + p.y, z := t.z + p.z }

/-- Some indeterminate content of an uninitialised `OBJECT_MATERIAL` local. -/
def garbageMaterial : OBJECT_MATERIAL Int :=
  { diffuseColor := ⟨-1, -2, -3⟩, specularColor := ⟨-4, -5, -6⟩, shininess := -7, tag := "" }

/-- The empty registry: a 16-slot table with no texture loaded, no material
defined, and a recording shader that has received no call. -/
def emptyScene {F : Type} : SceneManager F :=
  { m_pShaderManager := some { calls := [] }
    m_textureIDs := List.replicate 16 { tag := "", ID := 0 }
    m_loadedTextures := 0
    m_objectMaterials := [] }

/-- The GL state with no texture name allocated and no call issued. -/
def emptyGL : GLState := { textureNames := [], calls := [] }

/-- A file system on which every image file is a readable RGB image. -/
def allReadable (_filename : String) : Option Image :=
  some { width := 64, height := 64, colorChannels := 3 }

/-- The five loads of `LoadSceneTextures`, as (file, tag) pairs. -/
def sceneLoads : List (String × String) :=
  [("textures/street.jpg", "street"), ("textures/blackmat.jpg", "bmat"),
   ("textures/wall.jpg", "wall"), ("textures/lamp.jpg", "lamp"),
   ("textures/wood.jpg", "wood")]

/-- Two loads of different files under the same tag. -/
def duplicateLoads : List (String × String) :=
  [("textures/wood.jpg", "wood"), ("textures/lamp.jpg", "wood")]

/-- The load of "textures/wood.jpg" under the tag "wood", `n` times over. -/
def repeatedLoads (n : Nat) : List (String × String) :=
  List.replicate n ("textures/wood.jpg", "wood")

/-- The scene manager after `LoadSceneTextures` on the empty registry when all
five files are readable and the driver is `nextName`: handles 1 to 5. -/
def loadedScene {F : Type} : SceneManager F :=
  { m_pShaderManager := some { calls := [] }
    m_textureIDs :=
      [⟨"street", 1⟩, ⟨"bmat", 2⟩, ⟨"wall", 3⟩, ⟨"lamp", 4⟩, ⟨"wood", 5⟩] ++
        List.replicate 11 { tag := "", ID := 0 }
    m_loadedTextures := 5
    m_objectMaterials := [] }

/-! ## Lemmas on the lookup loops -/

theorem FindTextureSlot_loop_found {F : Type} (s : SceneManager F) (tag : String)
    (fuel : Nat) (r : Int) (index : Nat) :
    FindTextureSlot.loop s tag (fuel + 1) r index true = some r := by
  simp [FindTextureSlot.loop]

theorem FindTextureID_loop_found {F : Type} (s : SceneManager F) (tag : String)
    (fuel : Nat) (r : Int) (index : Nat) :
    FindTextureID.loop s tag (fuel + 1) r index true = some r := by
  simp [FindTextureID.loop]

/-- Scanning from `index` with no matching entry ahead leaves the result as it
was. -/
theorem FindTextureSlot_loop_miss {F : Type} (s : SceneManager F) (tag : String)
    (hwf : s.m_loadedTextures ≤ (s.m_textureIDs.length : Int)) :
    ∀ (fuel index : Nat) (r : Int),
      s.m_loadedTextures.toNat - index < fuel →
      (∀ (j : Nat) (e : TEXTURE_INFO), index ≤ j → (j : Int) < s.m_loadedTextures →
        s.m_textureIDs[j]? = some e → e.tag ≠ tag) →
      FindTextureSlot.loop s tag fuel r index false = some r := by
  intro fuel
  induction fuel with
  | zero => intro index r h; omega
  | succ n ih =>
    intro index r hfuel hno
    unfold FindTextureSlot.loop
    by_cases hc : (index : Int) < s.m_loadedTextures
    · have hlt : index < s.m_textureIDs.length := by omega
      have hget : s.m_textureIDs[index]? = some s.m_textureIDs[index] :=
        List.getElem?_eq_getElem hlt
      have hne := hno index _ (Nat.le_refl _) hc hget
      simp only [hc, hget, hne, and_self, if_true, if_false]
      exact ih (index + 1) r (by omega) (fun j e hj => hno j e (by omega))
    · simp [hc]

theorem FindTextureID_loop_miss {F : Type} (s : SceneManager F) (tag : String)
    (hwf : s.m_loadedTextures ≤ (s.m_textureIDs.length : Int)) :
    ∀ (fuel index : Nat) (r : Int),
      s.m_loadedTextures.toNat - index < fuel →
      (∀ (j : Nat) (e : TEXTURE_INFO), index ≤ j → (j : Int) < s.m_loadedTextures →
        s.m_textureIDs[j]? = some e → e.tag ≠ tag) →
      FindTextureID.loop s tag fuel r index false = some r := by
  intro fuel
  induction fuel with
  | zero => intro index r h; omega
  | succ n ih =>
    intro index r hfuel hno
    unfold FindTextureID.loop
    by_cases hc : (index : Int) < s.m_loadedTextures
    · have hlt : index < s.m_textureIDs.length := by omega
      have hget : s.m_textureIDs[index]? = some s.m_textureIDs[index] :=
        List.getElem?_eq_getElem hlt
      have hne := hno index _ (Nat.le_refl _) hc hget
      simp only [hc, hget, hne, and_self, if_true, if_false]
      exact ih (index + 1) r (by omega) (fun j e hj => hno j e (by omega))
    · simp [hc]

/-- Scanning from `index` stops at the first matching entry `k` ahead and
yields its index. -/
theorem FindTextureSlot_loop_hit {F : Type} (s : SceneManager F) (tag : String)
    (k : Nat) (e : TEXTURE_INFO) (hk : (k : Int) < s.m_loadedTextures)
    (hget : s.m_textureIDs[k]? = some e) (htag : e.tag = tag) :
    ∀ (fuel index : Nat) (r : Int),
      index ≤ k → k - index + 1 < fuel →
      (∀ (j : Nat) (e' : TEXTURE_INFO), index ≤ j → j < k →
        s.m_textureIDs[j]? = some e' → e'.tag ≠ tag) →
      FindTextureSlot.loop s tag fuel r index false = some (k : Int) := by
  have hklen : k < s.m_textureIDs.length := by
    rcases List.getElem?_eq_some.mp hget with ⟨h, _⟩
    exact h
  intro fuel
  induction fuel with
  | zero => intro index r _ h; omega
  | succ n ih =>
    intro index r hle hfuel hno
    unfold FindTextureSlot.loop
    have hc : (index : Int) < s.m_loadedTextures := by omega
    by_cases hik : index = k
    · subst hik
      obtain ⟨m, rfl⟩ : ∃ m, n = m + 1 := ⟨n - 1, by omega⟩
      simp only [hc, hget, htag, and_self, if_true]
      exact FindTextureSlot_loop_found s tag m _ _
    · have hlt : index < s.m_textureIDs.length := by omega
      have hgeti : s.m_textureIDs[index]? = some s.m_textureIDs[index] :=
        List.getElem?_eq_getElem hlt
      have hne := hno index _ (Nat.le_refl _) (by omega) hgeti
      simp only [hc, hgeti, hne, and_self, if_true, if_false]
      exact ih (index + 1) r (by omega) (by omega) (fun j e' hj => hno j e' (by omega))

theorem FindTextureID_loop_hit {F : Type} (s : SceneManager F) (tag : String)
    (k : Nat) (e : TEXTURE_INFO) (hk : (k : Int) < s.m_loadedTextures)
    (hget : s.m_textureIDs[k]? = some e) (htag : e.tag = tag) :
    ∀ (fuel index : Nat) (r : Int),
      index ≤ k → k - index + 1 < fuel →
      (∀ (j : Nat) (e' : TEXTURE_INFO), index ≤ j → j < k →
        s.m_textureIDs[j]? = some e' → e'.tag ≠ tag) →
      FindTextureID.loop s tag fuel r index false = some (toInt32 e.ID) := by
  have hklen : k < s.m_textureIDs.length := by
    rcases List.getElem?_eq_some.mp hget with ⟨h, _⟩
    exact h
  intro fuel
  induction fuel with
  | zero => intro index r _ h; omega
  | succ n ih =>
    intro index r hle hfuel hno
    unfold FindTextureID.loop
    have hc : (index : Int) < s.m_loadedTextures := by omega
    by_cases hik : index = k
    · subst hik
      obtain ⟨m, rfl⟩ : ∃ m, n = m + 1 := ⟨n - 1, by omega⟩
      simp only [hc, hget, htag, and_self, if_true]
      exact FindTextureID_loop_found s tag m _ _
    · have hlt : index < s.m_textureIDs.length := by omega
      have hgeti : s.m_textureIDs[index]? = some s.m_textureIDs[index] :=
        List.getElem?_eq_getElem hlt
      have hne := hno index _ (Nat.le_refl _) (by omega) hgeti
      simp only [hc, hgeti, hne, and_self, if_true, if_false]
      exact ih (index + 1) r (by omega) (by omega) (fun j e' hj => hno j e' (by omega))

/-- Converting a `GLuint` to `int` and back gives the same 32-bit value. -/
theorem toUInt32_toInt32 (n : Nat) : toUInt32 (toInt32 n) = n % 2 ^ 32 := by
  unfold toUInt32 toInt32
  split <;> omega

/-- Among the first `n` entries, an entry with the tag implies a first such
entry. -/
theorem exists_first_tag (ids : List TEXTURE_INFO) (tag : String) (n : Int)
    (h : ∃ (i : Nat) (e : TEXTURE_INFO), (i : Int) < n ∧ ids[i]? = some e ∧ e.tag = tag) :
    ∃ (i : Nat) (e : TEXTURE_INFO), (i : Int) < n ∧ ids[i]? = some e ∧ e.tag = tag ∧
      ∀ (j : Nat) (e' : TEXTURE_INFO), j < i → ids[j]? = some e' → e'.tag ≠ tag := by
  classical
  have hex : ∃ i : Nat, ∃ e : TEXTURE_INFO, (i : Int) < n ∧ ids[i]? = some e ∧ e.tag = tag := h
  refine ⟨Nat.find hex, ?_⟩
  obtain ⟨e, h1, h2, h3⟩ := Nat.find_spec hex
  refine ⟨e, h1, h2, h3, ?_⟩
  intro j e' hj hget htag
  exact Nat.find_min hex hj ⟨e', by omega, hget, htag⟩

/-- A tag carried by none of the loaded entries: both lookups return -1. -/
theorem find_unregistered {F : Type} (s : SceneManager F) (tag : String)
    (hwf : s.m_loadedTextures ≤ (s.m_textureIDs.length : Int))
    (hno : ∀ (i : Nat) (e : TEXTURE_INFO), (i : Int) < s.m_loadedTextures →
      s.m_textureIDs[i]? = some e → e.tag ≠ tag) :
    FindTextureSlot s tag = some (-1) ∧ FindTextureID s tag = some (-1) :=
  ⟨FindTextureSlot_loop_miss s tag hwf _ 0 (-1) (by omega) (fun j e _ => hno j e),
   FindTextureID_loop_miss s tag hwf _ 0 (-1) (by omega) (fun j e _ => hno j e)⟩

/-- A tag whose first loaded entry is entry `i`: the lookups return `i` and the
handle of entry `i`. -/
theorem find_registered {F : Type} (s : SceneManager F) (tag : String)
    (i : Nat) (e : TEXTURE_INFO) (hi : (i : Int) < s.m_loadedTextures)
    (hget : s.m_textureIDs[i]? = some e) (htag : e.tag = tag)
    (hfirst : ∀ (j : Nat) (e' : TEXTURE_INFO), j < i →
      s.m_textureIDs[j]? = some e' → e'.tag ≠ tag) :
    FindTextureSlot s tag = some (i : Int) ∧ FindTextureID s tag = some (toInt32 e.ID) :=
  ⟨FindTextureSlot_loop_hit s tag i e hi hget htag _ 0 (-1) (Nat.zero_le _) (by omega)
      (fun j e' _ => hfirst j e'),
   FindTextureID_loop_hit s tag i e hi hget htag _ 0 (-1) (Nat.zero_le _) (by omega)
      (fun j e' _ => hfirst j e')⟩

/-- Every name in use is at most the largest name in use. -/
theorem le_foldr_max_of_mem (names : List Nat) (x : Nat) (h : x ∈ names) :
    x ≤ names.foldr max 0 := by
  induction names with
  | nil => simp at h
  | cons a t ih =>
    simp only [List.foldr_cons]
    rcases List.mem_cons.mp h with rfl | h'
    · exact le_max_left _ _
    · exact le_trans (ih h') (le_max_right _ _)

/-- The driver `nextName` meets the contract of `glGenTextures`. -/
theorem nextName_fresh : FreshNames nextName := by
  intro names
  refine ⟨?_, by simp [nextName]⟩
  intro hmem
  have := le_foldr_max_of_mem names _ hmem
  simp only [nextName] at this
  omega

theorem expectedBindings_length (es : List TEXTURE_INFO) :
    ∀ first : Nat, (expectedBindings es first).length = 2 * es.length := by
  induction es with
  | nil => intro first; simp [expectedBindings]
  | cons e t ih =>
    intro first
    simp only [expectedBindings, List.length_cons, ih]
    omega

/-- Calls `2 j` and `2 j + 1` of the expected trace select unit `first + j` and
bind the handle of entry `j`. -/
theorem expectedBindings_getElem? (es : List TEXTURE_INFO) :
    ∀ (first j : Nat) (e : TEXTURE_INFO), es[j]? = some e →
      (expectedBindings es first)[2 * j]? = some (GLCall.activeTexture (first + j)) ∧
      (expectedBindings es first)[2 * j + 1]? = some (GLCall.bindTexture2D e.ID) := by
  induction es with
  | nil => intro first j e h; simp at h
  | cons a t ih =>
    intro first j e h
    cases j with
    | zero =>
      simp only [List.getElem?_cons_zero, Option.some.injEq] at h
      subst h
      simp [expectedBindings]
    | succ j =>
      simp only [List.getElem?_cons_succ] at h
      obtain ⟨h1, h2⟩ := ih (first + 1) j e h
      have e1 : 2 * (j + 1) = (2 * j) + 1 + 1 := by omega
      have e2 : first + (j + 1) = first + 1 + j := by omega
      have e3 : 2 * (j + 1) + 1 = (2 * j + 1) + 1 + 1 := by omega
      unfold expectedBindings
      refine ⟨?_, ?_⟩
      · rw [e1, e2, List.getElem?_cons_succ, List.getElem?_cons_succ]
        exact h1
      · rw [e3, List.getElem?_cons_succ, List.getElem?_cons_succ]
        exact h2

/-- Replaying the expected trace binds entry `j` to unit `first + j` and leaves
every other unit as it was. -/
theorem foldl_step_expectedBindings (es : List TEXTURE_INFO) :
    ∀ (first : Nat) (st : Nat × (Nat → Nat)),
      (∀ (j : Nat) (e : TEXTURE_INFO), es[j]? = some e →
        ((expectedBindings es first).foldl GLCall.step st).2 (first + j) = e.ID) ∧
      (∀ u : Nat, u < first ∨ first + es.length ≤ u →
        ((expectedBindings es first).foldl GLCall.step st).2 u = st.2 u) := by
  induction es with
  | nil =>
    intro first st
    exact ⟨fun j e h => by simp at h, fun u _ => rfl⟩
  | cons a t ih =>
    intro first st
    obtain ⟨ih1, ih2⟩ := ih (first + 1) (first, Function.update st.2 first a.ID)
    simp only [expectedBindings, List.foldl_cons, GLCall.step]
    refine ⟨?_, ?_⟩
    · intro j e h
      cases j with
      | zero =>
        simp only [List.getElem?_cons_zero, Option.some.injEq] at h
        subst h
        have h2 := ih2 first (Or.inl (Nat.lt_succ_self _))
        simp only [Function.update_same] at h2
        simpa using h2
      | succ j =>
        simp only [List.getElem?_cons_succ] at h
        have := ih1 j e h
        rwa [show first + 1 + j = first + (j + 1) by omega] at this
    · intro u hu
      rw [ih2 u (by simp only [List.length_cons] at hu; omega)]
      have hne : u ≠ first := by
        simp only [List.length_cons] at hu
        omega
      simp [Function.update_noteq hne]

/-- The loop of `BindGLTextures`, started at `i`, appends the expected calls for
the loaded entries from `i` on. -/
theorem BindGLTextures_loop_spec {F : Type} (s : SceneManager F)
    (hwf : s.m_loadedTextures ≤ (s.m_textureIDs.length : Int)) :
    ∀ (fuel i : Nat) (gl : GLState),
      s.m_loadedTextures.toNat - i < fuel → i ≤ s.m_loadedTextures.toNat →
      BindGLTextures.loop s fuel i gl =
        some { gl with
          calls := gl.calls ++
            expectedBindings ((s.m_textureIDs.take s.m_loadedTextures.toNat).drop i) i } := by
  intro fuel
  induction fuel with
  | zero => intro i gl h; omega
  | succ n ih =>
    intro i gl hfuel hle
    unfold BindGLTextures.loop
    by_cases hc : (i : Int) < s.m_loadedTextures
    · have hlt : i < s.m_textureIDs.length := by omega
      have hlt' : i < (s.m_textureIDs.take s.m_loadedTextures.toNat).length := by
        rw [List.length_take]
        omega
      have hget : s.m_textureIDs[i]? = some s.m_textureIDs[i] :=
        List.getElem?_eq_getElem hlt
      simp only [hc, hget, if_true]
      rw [ih (i + 1) _ (by omega) (by omega), List.drop_eq_getElem_cons hlt',
        List.getElem_take]
      simp [GLState.issue, expectedBindings]
    · have hnil : (s.m_textureIDs.take s.m_loadedTextures.toNat).drop i = [] := by
        apply List.drop_eq_nil_of_le
        rw [List.length_take]
        omega
      simp [hc, hnil, expectedBindings]

/-- The matrix of `SetTransformations` acts on a point as scaling, then the
rotations about X, Y and Z, then the translation. -/
theorem transformPoint_modelView {F : Type} [CommRing F] (T : Trig F)
    (scaleXYZ : Vec3 F) (rx ry rz : F) (positionXYZ p : Vec3 F) :
    transformPoint (modelView T scaleXYZ rx ry rz positionXYZ) p =
      translateBy positionXYZ
        (rotZ T (T.radians rz) (rotY T (T.radians ry) (rotX T (T.radians rx)
          (scaleBy scaleXYZ p)))) := by
  simp [transformPoint, modelView, glm_translate, glm_rotate, glm_scale, translateBy,
    rotZ, rotY, rotX, scaleBy, Matrix.mulVec, Matrix.dotProduct, Matrix.mul_apply,
    Fin.sum_univ_four, Matrix.vecHead, Matrix.vecTail]
  refine ⟨?_, ?_, ?_⟩ <;> ring

theorem FindMaterial_loop_found {F : Type} (mats : List (OBJECT_MATERIAL F)) (tag : String)
    (fuel index : Nat) (material : OBJECT_MATERIAL F) :
    FindMaterial.loop mats tag (fuel + 1) index true material = some material := by
  simp [FindMaterial.loop]

/-- Scanning the materials from `index` with no matching entry ahead leaves the
output material as it was. -/
theorem FindMaterial_loop_miss {F : Type} (mats : List (OBJECT_MATERIAL F)) (tag : String) :
    ∀ (fuel index : Nat) (material : OBJECT_MATERIAL F),
      mats.length - index < fuel →
      (∀ (j : Nat) (m : OBJECT_MATERIAL F), index ≤ j → mats[j]? = some m → m.tag ≠ tag) →
      FindMaterial.loop mats tag fuel index false material = some material := by
  intro fuel
  induction fuel with
  | zero => intro index material h; omega
  | succ n ih =>
    intro index material hfuel hno
    unfold FindMaterial.loop
    by_cases hc : index < mats.length
    · have hget : mats[index]? = some mats[index] := List.getElem?_eq_getElem hc
      have hne := hno index _ (Nat.le_refl _) hget
      simp only [hc, hget, hne, and_self, if_true, if_false]
      exact ih (index + 1) material (by omega) (fun j m hj => hno j m (by omega))
    · simp [hc]

/-- Scanning the materials from `index` stops at the first matching entry `k`
ahead and copies its three values. -/
theorem FindMaterial_loop_hit {F : Type} (mats : List (OBJECT_MATERIAL F)) (tag : String)
    (k : Nat) (mk : OBJECT_MATERIAL F) (hget : mats[k]? = some mk) (htag : mk.tag = tag) :
    ∀ (fuel index : Nat) (material : OBJECT_MATERIAL F),
      index ≤ k → k - index + 1 < fuel →
      (∀ (j : Nat) (m : OBJECT_MATERIAL F), index ≤ j → j < k →
        mats[j]? = some m → m.tag ≠ tag) →
      FindMaterial.loop mats tag fuel index false material =
        some { material with
          diffuseColor := mk.diffuseColor
          specularColor := mk.specularColor
          shininess := mk.shininess } := by
  have hklen : k < mats.length := by
    rcases List.getElem?_eq_some.mp hget with ⟨h, _⟩
    exact h
  intro fuel
  induction fuel with
  | zero => intro index material _ h; omega
  | succ n ih =>
    intro index material hle hfuel hno
    unfold FindMaterial.loop
    have hc : index < mats.length := by omega
    by_cases hik : index = k
    · subst hik
      obtain ⟨m, rfl⟩ : ∃ m, n = m + 1 := ⟨n - 1, by omega⟩
      simp only [hc, hget, htag, and_self, if_true]
      exact FindMaterial_loop_found mats tag m _ _
    · have hgeti : mats[index]? = some mats[index] := List.getElem?_eq_getElem hc
      have hne := hno index _ (Nat.le_refl _) (by omega) hgeti
      simp only [hc, hgeti, hne, and_self, if_true, if_false]
      exact ih (index + 1) material (by omega) (by omega)
        (fun j m hj => hno j m (by omega))

/-- A material with the tag implies a first material with the tag. -/
theorem exists_first_material {F : Type} (mats : List (OBJECT_MATERIAL F)) (tag : String)
    (h : ∃ (i : Nat) (m : OBJECT_MATERIAL F), mats[i]? = some m ∧ m.tag = tag) :
    ∃ (i : Nat) (m : OBJECT_MATERIAL F), mats[i]? = some m ∧ m.tag = tag ∧
      ∀ (j : Nat) (m' : OBJECT_MATERIAL F), j < i → mats[j]? = some m' → m'.tag ≠ tag := by
  classical
  have hex : ∃ i : Nat, ∃ m : OBJECT_MATERIAL F, mats[i]? = some m ∧ m.tag = tag := h
  refine ⟨Nat.find hex, ?_⟩
  obtain ⟨m, h1, h2⟩ := Nat.find_spec hex
  refine ⟨m, h1, h2, ?_⟩
  intro j m' hj hget htag
  exact Nat.find_min hex hj ⟨m', hget, htag⟩

/-- With a non-empty registry and a tag no material carries, `FindMaterial`
still reports `true` and leaves the output material untouched. -/
theorem FindMaterial_unknown_tag {F : Type} (s : SceneManager F) (tag : String)
    (material : OBJECT_MATERIAL F) (hne : s.m_objectMaterials ≠ [])
    (hno : ∀ (j : Nat) (m : OBJECT_MATERIAL F),
      s.m_objectMaterials[j]? = some m → m.tag ≠ tag) :
    FindMaterial s tag material = some (true, material) := by
  have hlen : s.m_objectMaterials.length ≠ 0 := by
    simpa [List.length_eq_zero] using hne
  unfold FindMaterial
  rw [if_neg hlen, FindMaterial_loop_miss s.m_objectMaterials tag _ 0 material (by omega)
    (fun j m _ => hno j m)]

/-- Every lookup in a well-formed texture registry has a defined result. -/
theorem FindTextureSlot_defined {F : Type} (s : SceneManager F) (tag : String)
    (hwf : s.m_loadedTextures ≤ (s.m_textureIDs.length : Int)) :
    ∃ k : Int, FindTextureSlot s tag = some k := by
  classical
  by_cases h : ∃ (i : Nat) (e : TEXTURE_INFO), (i : Int) < s.m_loadedTextures ∧
      s.m_textureIDs[i]? = some e ∧ e.tag = tag
  · obtain ⟨i, e, hi, hget, htag, hfirst⟩ := exists_first_tag _ _ _ h
    exact ⟨i, (find_registered s tag i e hi hget htag hfirst).1⟩
  · refine ⟨-1, (find_unregistered s tag hwf ?_).1⟩
    intro i e hi hget htag
    exact h ⟨i, e, hi, hget, htag⟩

/-- The groups of calls before the 74 draws of `RenderScene`: floor and wall,
the lamp head, four lamp parts without material, the 51 arm segments, and the
16 bench parts. -/
theorem RenderScene_drawGroups {F : Type} [Field F] (T : Trig F) (degrees : F → F) :
    drawGroups ((RenderScene T degrees).map SceneCall.kind) =
      [[CallKind.modelMatrix, CallKind.textureOrColour, CallKind.material],
       [CallKind.modelMatrix, CallKind.textureOrColour, CallKind.material],
       [CallKind.modelMatrix, CallKind.material, CallKind.textureOrColour],
       [CallKind.modelMatrix, CallKind.textureOrColour],
       [CallKind.modelMatrix, CallKind.textureOrColour],
       [CallKind.modelMatrix, CallKind.textureOrColour],
       [CallKind.modelMatrix, CallKind.textureOrColour]] ++
      List.replicate 51 [CallKind.textureOrColour, CallKind.modelMatrix] ++
      List.replicate 16
        [CallKind.modelMatrix, CallKind.textureOrColour, CallKind.material] := by
  rfl

set_option maxRecDepth 100000 in
/-- The kinds of the calls of `RenderScene`, in program order. -/
theorem RenderScene_kinds {F : Type} [Field F] (T : Trig F) (degrees : F → F) :
    (RenderScene T degrees).map SceneCall.kind =
      [CallKind.modelMatrix, CallKind.textureOrColour, CallKind.material, CallKind.draw,
       CallKind.modelMatrix, CallKind.textureOrColour, CallKind.material, CallKind.draw,
       CallKind.modelMatrix, CallKind.material, CallKind.textureOrColour, CallKind.draw,
       CallKind.modelMatrix, CallKind.textureOrColour, CallKind.draw,
       CallKind.modelMatrix, CallKind.textureOrColour, CallKind.draw,
       CallKind.modelMatrix, CallKind.textureOrColour, CallKind.draw,
       CallKind.modelMatrix, CallKind.textureOrColour, CallKind.draw] ++
      (List.replicate 51
        [CallKind.textureOrColour, CallKind.modelMatrix, CallKind.draw]).flatten ++
      (List.replicate 16
        [CallKind.modelMatrix, CallKind.textureOrColour, CallKind.material,
         CallKind.draw]).flatten := by
  rfl

/-- The loop of `DestroyGLTextures`, started at `i`, allocates one more name per
remaining loaded slot and releases none. -/
theorem DestroyGLTextures_loop_spec {F : Type} (gen : List Nat → Nat) :
    ∀ (fuel i : Nat) (s : SceneManager F) (gl : GLState),
      s.m_loadedTextures ≤ (s.m_textureIDs.length : Int) →
      s.m_loadedTextures.toNat - i < fuel →
      ∃ (s' : SceneManager F) (gl' : GLState),
        DestroyGLTextures.loop gen fuel i s gl = some (s', gl') ∧
        s'.m_loadedTextures = s.m_loadedTextures ∧
        s'.m_textureIDs.length = s.m_textureIDs.length ∧
        (∀ n ∈ gl.textureNames, n ∈ gl'.textureNames) ∧
        gl'.textureNames.length =
          gl.textureNames.length + (s.m_loadedTextures.toNat - i) := by
  intro fuel
  induction fuel with
  | zero => intro i s gl _ h; omega
  | succ n ih =>
    intro i s gl hwf hfuel
    unfold DestroyGLTextures.loop
    by_cases hc : (i : Int) < s.m_loadedTextures
    · have hlt : i < s.m_textureIDs.length := by omega
      have hget : s.m_textureIDs[i]? = some s.m_textureIDs[i] :=
        List.getElem?_eq_getElem hlt
      simp only [hc, hget, if_true, glGenTextures]
      obtain ⟨s', gl', hrun, h1, h2, h3, h4⟩ :=
        ih (i + 1)
          { s with
            m_textureIDs :=
              s.m_textureIDs.set i { s.m_textureIDs[i] with ID := gen gl.textureNames } }
          { textureNames := gen gl.textureNames :: gl.textureNames
            calls := gl.calls ++ [GLCall.genTextures (gen gl.textureNames)] }
          (by simpa using hwf) (by simp only; omega)
      refine ⟨s', gl', hrun, h1, ?_, ?_, ?_⟩
      · rw [h2]
        exact List.length_set _ _ _
      · intro name hname
        exact h3 name (List.mem_cons_of_mem _ hname)
      · rw [h4]
        simp only [List.length_cons]
        omega
    · refine ⟨s, gl, by simp [hc], rfl, rfl, fun _ h => h, ?_⟩
      omega

/-- A successful `CreateGLTexture` below the capacity of the table. -/
theorem CreateGLTexture_ok {F : Type} (stbi_load : String → Option Image)
    (gen : List Nat → Nat) (s : SceneManager F) (gl : GLState) (filename tag : String)
    (img : Image) (himg : stbi_load filename = some img)
    (hch : img.colorChannels = 3 ∨ img.colorChannels = 4)
    (h0 : 0 ≤ s.m_loadedTextures)
    (hcap : s.m_loadedTextures < (s.m_textureIDs.length : Int)) :
    ∃ gl' : GLState,
      CreateGLTexture stbi_load gen s gl filename tag =
        some (true,
          { s with
            m_textureIDs :=
              s.m_textureIDs.set s.m_loadedTextures.toNat
                { tag := tag, ID := gen gl.textureNames }
            m_loadedTextures := s.m_loadedTextures + 1 },
          gl') := by
  have hlt : s.m_loadedTextures.toNat < s.m_textureIDs.length := by omega
  have hch' : img.colorChannels = 3 ∨ (¬ img.colorChannels = 3 ∧ img.colorChannels = 4) := by
    omega
  rcases hch' with h3 | ⟨hn3, h4⟩
  · simp only [CreateGLTexture, himg, glGenTextures, h3, h0, hlt, and_self, if_true]
    exact ⟨_, rfl⟩
  · simp only [CreateGLTexture, himg, glGenTextures, hn3, h4, h0, hlt, and_self, if_true,
      if_false]
    exact ⟨_, rfl⟩

/-- A decodable image meeting a full table: the slot written lies outside the
table. -/
theorem CreateGLTexture_full {F : Type} (stbi_load : String → Option Image)
    (gen : List Nat → Nat) (s : SceneManager F) (gl : GLState) (filename tag : String)
    (img : Image) (himg : stbi_load filename = some img)
    (hch : img.colorChannels = 3 ∨ img.colorChannels = 4)
    (hfull : (s.m_textureIDs.length : Int) ≤ s.m_loadedTextures) :
    CreateGLTexture stbi_load gen s gl filename tag = none := by
  have hlt : ¬ (0 ≤ s.m_loadedTextures ∧ s.m_loadedTextures.toNat < s.m_textureIDs.length) := by
    omega
  have hch' : img.colorChannels = 3 ∨ (¬ img.colorChannels = 3 ∧ img.colorChannels = 4) := by
    omega
  rcases hch' with h3 | ⟨hn3, h4⟩
  · simp [CreateGLTexture, himg, glGenTextures, h3, hlt]
  · simp [CreateGLTexture, himg, glGenTextures, hn3, h4, hlt]

/-- A failing `CreateGLTexture` leaves the scene manager as it was. -/
theorem CreateGLTexture_fail {F : Type} (stbi_load : String → Option Image)
    (gen : List Nat → Nat) (s : SceneManager F) (gl : GLState) (filename tag : String)
    (h : stbi_load filename = none ∨
      ∃ img : Image, stbi_load filename = some img ∧
        ¬ (img.colorChannels = 3 ∨ img.colorChannels = 4)) :
    ∃ gl' : GLState, CreateGLTexture stbi_load gen s gl filename tag = some (false, s, gl') := by
  rcases h with h | ⟨img, himg, hbad⟩
  · exact ⟨gl, by simp [CreateGLTexture, h]⟩
  · have h3 : ¬ img.colorChannels = 3 := fun h => hbad (Or.inl h)
    have h4 : ¬ img.colorChannels = 4 := fun h => hbad (Or.inr h)
    simp [CreateGLTexture, himg, glGenTextures, h3, h4]

/-- Overwriting slot `n` leaves the first `n` slots as they were. -/
theorem take_set_same {α : Type} (l : List α) (x : α) :
    ∀ n : Nat, (l.set n x).take n = l.take n := by
  induction l with
  | nil => intro n; simp
  | cons a t ih =>
    intro n
    cases n with
    | zero => simp
    | succ k => simp [ih]

/-- Writing slot `n` and counting it as loaded appends its tag to the
registered tags. -/
theorem registeredTags_set {F : Type} (s : SceneManager F) (tag : String) (name : Nat)
    (h0 : 0 ≤ s.m_loadedTextures)
    (hcap : s.m_loadedTextures < (s.m_textureIDs.length : Int)) :
    registeredTags
      { s with
        m_textureIDs :=
          s.m_textureIDs.set s.m_loadedTextures.toNat { tag := tag, ID := name }
        m_loadedTextures := s.m_loadedTextures + 1 } =
      registeredTags s ++ [tag] := by
  have hlt : s.m_loadedTextures.toNat < s.m_textureIDs.length := by omega
  have hn : (s.m_loadedTextures + 1).toNat = s.m_loadedTextures.toNat + 1 := by omega
  simp only [registeredTags, hn]
  rw [List.take_succ, List.getElem?_set_self hlt, take_set_same]
  simp

/-- A load sequence that fits into the table runs to its end; the registered
tags grow by the tags of the successful calls, in call order. -/
theorem createAll_spec {F : Type} (stbi_load : String → Option Image)
    (gen : List Nat → Nat) :
    ∀ (calls : List (String × String)) (s : SceneManager F) (gl : GLState),
      0 ≤ s.m_loadedTextures →
      s.m_loadedTextures + ((successfulTags stbi_load calls).length : Int) ≤
        (s.m_textureIDs.length : Int) →
      ∃ (s' : SceneManager F) (gl' : GLState),
        createAll stbi_load gen calls s gl = some (s', gl') ∧
        registeredTags s' = registeredTags s ++ successfulTags stbi_load calls ∧
        s'.m_loadedTextures =
          s.m_loadedTextures + ((successfulTags stbi_load calls).length : Int) ∧
        s'.m_textureIDs.length = s.m_textureIDs.length := by
  intro calls
  induction calls with
  | nil =>
    intro s gl _ _
    exact ⟨s, gl, rfl, by simp [successfulTags], by simp [successfulTags], rfl⟩
  | cons c rest ih =>
    obtain ⟨filename, tag⟩ := c
    intro s gl h0 hfit
    by_cases hgood : ∃ img : Image, stbi_load filename = some img ∧
        (img.colorChannels = 3 ∨ img.colorChannels = 4)
    · obtain ⟨img, himg, hch⟩ := hgood
      have htags : successfulTags stbi_load ((filename, tag) :: rest) =
          tag :: successfulTags stbi_load rest := by
        simp [successfulTags, himg, hch]
      rw [htags] at hfit ⊢
      simp only [List.length_cons, Nat.cast_add, Nat.cast_one] at hfit ⊢
      obtain ⟨gl1, hrun⟩ := CreateGLTexture_ok stbi_load gen s gl filename tag img himg hch
        h0 (by omega)
      obtain ⟨s', gl', hrest, htag', hcount, hlen⟩ :=
        ih
          { s with
            m_textureIDs :=
              s.m_textureIDs.set s.m_loadedTextures.toNat
                { tag := tag, ID := gen gl.textureNames }
            m_loadedTextures := s.m_loadedTextures + 1 }
          gl1
          (show (0 : Int) ≤ s.m_loadedTextures + 1 by omega)
          (by simp only [List.length_set]; omega)
      dsimp only at hcount hlen
      refine ⟨s', gl', ?_, ?_, ?_, ?_⟩
      · simp only [createAll, hrun]
        exact hrest
      · rw [htag', registeredTags_set s tag _ h0 (by omega)]
        simp
      · rw [hcount]
        omega
      · rw [hlen]
        exact List.length_set _ _ _
    · have hbad : stbi_load filename = none ∨
          ∃ img : Image, stbi_load filename = some img ∧
            ¬ (img.colorChannels = 3 ∨ img.colorChannels = 4) := by
        cases hload : stbi_load filename with
        | none => exact Or.inl rfl
        | some img => exact Or.inr ⟨img, rfl, fun hch => hgood ⟨img, hload, hch⟩⟩
      have htags : successfulTags stbi_load ((filename, tag) :: rest) =
          successfulTags stbi_load rest := by
        rcases hbad with hnone | ⟨img, himg, hch⟩
        · simp [successfulTags, hnone]
        · simp [successfulTags, himg, hch]
      rw [htags] at hfit ⊢
      obtain ⟨gl1, hrun⟩ := CreateGLTexture_fail stbi_load gen s gl filename tag hbad
      obtain ⟨s', gl', hrest, htag', hcount, hlen⟩ := ih s gl1 h0 hfit
      exact ⟨s', gl', by simp only [createAll, hrun]; exact hrest, htag', hcount, hlen⟩

/-- A load sequence with more successful loads than free slots has no defined
result: one of its calls writes a slot outside the table. -/
theorem createAll_overflow {F : Type} (stbi_load : String → Option Image)
    (gen : List Nat → Nat) :
    ∀ (calls : List (String × String)) (s : SceneManager F) (gl : GLState),
      0 ≤ s.m_loadedTextures →
      s.m_loadedTextures ≤ (s.m_textureIDs.length : Int) →
      (s.m_textureIDs.length : Int) <
        s.m_loadedTextures + ((successfulTags stbi_load calls).length : Int) →
      createAll stbi_load gen calls s gl = none := by
  intro calls
  induction calls with
  | nil =>
    intro s gl _ hle hover
    simp only [successfulTags, List.length_nil, Nat.cast_zero] at hover
    omega
  | cons c rest ih =>
    obtain ⟨filename, tag⟩ := c
    intro s gl h0 hle hover
    by_cases hgood : ∃ img : Image, stbi_load filename = some img ∧
        (img.colorChannels = 3 ∨ img.colorChannels = 4)
    · obtain ⟨img, himg, hch⟩ := hgood
      have htags : successfulTags stbi_load ((filename, tag) :: rest) =
          tag :: successfulTags stbi_load rest := by
        simp [successfulTags, himg, hch]
      rw [htags] at hover
      simp only [List.length_cons, Nat.cast_add, Nat.cast_one] at hover
      by_cases hroom : s.m_loadedTextures < (s.m_textureIDs.length : Int)
      · obtain ⟨gl1, hrun⟩ := CreateGLTexture_ok stbi_load gen s gl filename tag img himg
          hch h0 hroom
        simp only [createAll, hrun]
        exact ih
          { s with
            m_textureIDs :=
              s.m_textureIDs.set s.m_loadedTextures.toNat
                { tag := tag, ID := gen gl.textureNames }
            m_loadedTextures := s.m_loadedTextures + 1 }
          gl1
          (show (0 : Int) ≤ s.m_loadedTextures + 1 by omega)
          (by simp only [List.length_set]; omega)
          (by simp only [List.length_set]; omega)
      · have hrun := CreateGLTexture_full stbi_load gen s gl filename tag img himg hch
          (by omega)
        simp only [createAll, hrun]
    · have hbad : stbi_load filename = none ∨
          ∃ img : Image, stbi_load filename = some img ∧
            ¬ (img.colorChannels = 3 ∨ img.colorChannels = 4) := by
        cases hload : stbi_load filename with
        | none => exact Or.inl rfl
        | some img => exact Or.inr ⟨img, rfl, fun hch => hgood ⟨img, hload, hch⟩⟩
      have htags : successfulTags stbi_load ((filename, tag) :: rest) =
          successfulTags stbi_load rest := by
        rcases hbad with hnone | ⟨img, himg, hch⟩
        · simp [successfulTags, hnone]
        · simp [successfulTags, himg, hch]
      rw [htags] at hover
      obtain ⟨gl1, hrun⟩ := CreateGLTexture_fail stbi_load gen s gl filename tag hbad
      simp only [createAll, hrun]
      exact ih s gl1 h0 hle hover

/-- The empty registry has no registered tag. -/
theorem registeredTags_of_empty {F : Type} (s : SceneManager F)
    (hempty : s.m_loadedTextures = 0) : registeredTags s = [] := by
  simp [registeredTags, hempty]

/-- The loop of `FindTextureSlot` reads only the table and the count. -/
theorem FindTextureSlot_loop_congr {F : Type} (s1 s2 : SceneManager F) (tag : String)
    (hids : s1.m_textureIDs = s2.m_textureIDs)
    (hcount : s1.m_loadedTextures = s2.m_loadedTextures) :
    ∀ (fuel : Nat) (r : Int) (index : Nat) (bFound : Bool),
      FindTextureSlot.loop s1 tag fuel r index bFound =
        FindTextureSlot.loop s2 tag fuel r index bFound := by
  intro fuel
  induction fuel with
  | zero => intro r index bFound; rfl
  | succ n ih =>
    intro r index bFound
    unfold FindTextureSlot.loop
    rw [hids, hcount]
    simp only [ih]

theorem FindTextureSlot_congr {F : Type} (s1 s2 : SceneManager F) (tag : String)
    (hids : s1.m_textureIDs = s2.m_textureIDs)
    (hcount : s1.m_loadedTextures = s2.m_loadedTextures) :
    FindTextureSlot s1 tag = FindTextureSlot s2 tag := by
  unfold FindTextureSlot
  rw [FindTextureSlot_loop_congr s1 s2 tag hids hcount, hcount]

/-- The lookup of a material always has a defined result. -/
theorem FindMaterial_defined {F : Type} (s : SceneManager F) (tag : String)
    (material : OBJECT_MATERIAL F) :
    ∃ r : Bool × OBJECT_MATERIAL F, FindMaterial s tag material = some r := by
  classical
  by_cases hlen : s.m_objectMaterials.length = 0
  · exact ⟨(false, material), by simp [FindMaterial, hlen]⟩
  · by_cases h : ∃ (i : Nat) (m : OBJECT_MATERIAL F),
        s.m_objectMaterials[i]? = some m ∧ m.tag = tag
    · obtain ⟨i, m, hget, htag, hfirst⟩ := exists_first_material _ _ h
      have hilen : i < s.m_objectMaterials.length := by
        rcases List.getElem?_eq_some.mp hget with ⟨hlt, _⟩
        exact hlt
      refine ⟨(true, { material with
        diffuseColor := m.diffuseColor
        specularColor := m.specularColor
        shininess := m.shininess }), ?_⟩
      unfold FindMaterial
      rw [if_neg hlen, FindMaterial_loop_hit s.m_objectMaterials tag i m hget htag _ 0
        material (Nat.zero_le _) (by omega) (fun j m' _ => hfirst j m')]
    · refine ⟨(true, material), ?_⟩
      unfold FindMaterial
      rw [if_neg hlen, FindMaterial_loop_miss s.m_objectMaterials tag _ 0 material
        (by omega) (fun j m _ hget htag => h ⟨j, m, hget, htag⟩)]

/-- Calls that do not write the sampler leave the list of sampler writes as it
was. -/
theorem samplerWrites_record {F : Type} (sm : ShaderManager F) (c : ShaderCall F)
    (h : ∀ value : Int, c ≠ ShaderCall.setSampler2DValue "objectTexture" value) :
    samplerWrites (sm.record c) = samplerWrites sm := by
  cases c with
  | setSampler2DValue name value =>
    by_cases hname : name = "objectTexture"
    · subst hname
      exact absurd rfl (h value)
    · simp [samplerWrites, ShaderManager.record, List.filterMap_append, hname]
  | _ => simp [samplerWrites, ShaderManager.record, List.filterMap_append]

theorem samplerWrites_record_sampler {F : Type} (sm : ShaderManager F) (value : Int) :
    samplerWrites (sm.record (ShaderCall.setSampler2DValue "objectTexture" value)) =
      samplerWrites sm ++ [value] := by
  simp [samplerWrites, ShaderManager.record, List.filterMap_append]

/-- With a shader present and the loaded textures inside the table, every call
of a render sequence has a defined effect: the registry is untouched, and the
sampler is written exactly by `SetShaderTexture`, with `FindTextureSlot` of its
tag. -/
theorem SceneCall_run_spec {F : Type} [CommRing F] (T : Trig F)
    (uninit : OBJECT_MATERIAL F) (s : SceneManager F) (sm : ShaderManager F)
    (c : SceneCall F) (hsm : s.m_pShaderManager = some sm)
    (hwf : s.m_loadedTextures ≤ (s.m_textureIDs.length : Int)) :
    ∃ (s' : SceneManager F) (sm' : ShaderManager F),
      c.run T uninit s = some s' ∧ s'.m_pShaderManager = some sm' ∧
      s'.m_textureIDs = s.m_textureIDs ∧ s'.m_loadedTextures = s.m_loadedTextures ∧
      samplerWrites sm' =
        samplerWrites sm ++ (textureTags [c]).filterMap (FindTextureSlot s) := by
  cases c with
  | SetTransformations scaleXYZ rx ry rz positionXYZ =>
    refine ⟨{ s with
        m_pShaderManager := some (sm.record (ShaderCall.setMat4Value "model"
          (modelView T scaleXYZ rx ry rz positionXYZ))) }, _, ?_, rfl, rfl, rfl, ?_⟩
    · simp only [SceneCall.run, SetTransformations, hsm]
    · rw [samplerWrites_record _ _ (by intro v; simp)]
      simp [textureTags]
  | SetShaderColor r g b a =>
    refine ⟨{ s with
        m_pShaderManager := some ((sm.record (ShaderCall.setIntValue "bUseTexture" 0)).record
          (ShaderCall.setVec4Value "objectColor" { r := r, g := g, b := b, a := a })) },
      _, ?_, rfl, rfl, rfl, ?_⟩
    · simp only [SceneCall.run, SetShaderColor, hsm]
    · rw [samplerWrites_record _ _ (by intro v; simp),
        samplerWrites_record _ _ (by intro v; simp)]
      simp [textureTags]
  | SetShaderTexture textureTag =>
    obtain ⟨k, hk⟩ := FindTextureSlot_defined s textureTag hwf
    refine ⟨{ s with
        m_pShaderManager := some ((sm.record (ShaderCall.setIntValue "bUseTexture" 1)).record
          (ShaderCall.setSampler2DValue "objectTexture" k)) }, _, ?_, rfl, rfl, rfl, ?_⟩
    · simp only [SceneCall.run, SetShaderTexture, hsm, hk]
    · rw [samplerWrites_record_sampler, samplerWrites_record _ _ (by intro v; simp)]
      simp [textureTags, hk]
  | SetTextureUVScale u v =>
    refine ⟨{ s with
        m_pShaderManager :=
          some (sm.record (ShaderCall.setVec2Value "UVscale" { x := u, y := v })) },
      _, ?_, rfl, rfl, rfl, ?_⟩
    · simp only [SceneCall.run, SetTextureUVScale, hsm]
    · rw [samplerWrites_record _ _ (by intro v; simp)]
      simp [textureTags]
  | SetShaderMaterial materialTag =>
    obtain ⟨⟨bReturn, material⟩, hfind⟩ := FindMaterial_defined s materialTag uninit
    by_cases hgo : s.m_objectMaterials.length > 0 ∧ bReturn = true
    · refine ⟨{ s with
          m_pShaderManager := some (((sm.record
            (ShaderCall.setVec3Value "material.diffuseColor" material.diffuseColor)).record
            (ShaderCall.setVec3Value "material.specularColor" material.specularColor)).record
            (ShaderCall.setFloatValue "material.shininess" material.shininess)) },
        _, ?_, rfl, rfl, rfl, ?_⟩
      · simp only [SceneCall.run, SetShaderMaterial, hgo.1, hfind, hgo.2, hsm, if_true]
      · rw [samplerWrites_record _ _ (by intro v; simp),
          samplerWrites_record _ _ (by intro v; simp),
          samplerWrites_record _ _ (by intro v; simp)]
        simp [textureTags]
    · refine ⟨s, sm, ?_, hsm, rfl, rfl, by simp [textureTags]⟩
      by_cases hlen : s.m_objectMaterials.length > 0
      · have hb : ¬ bReturn = true := fun hb => hgo ⟨hlen, hb⟩
        simp [SceneCall.run, SetShaderMaterial, hlen, hfind, hb]
      · simp [SceneCall.run, SetShaderMaterial, hlen]
  | DrawPlaneMesh => exact ⟨s, sm, rfl, hsm, rfl, rfl, by simp [textureTags]⟩
  | DrawBoxMesh => exact ⟨s, sm, rfl, hsm, rfl, rfl, by simp [textureTags]⟩
  | DrawCylinderMesh => exact ⟨s, sm, rfl, hsm, rfl, rfl, by simp [textureTags]⟩
  | DrawSphereMesh => exact ⟨s, sm, rfl, hsm, rfl, rfl, by simp [textureTags]⟩

/-- A render sequence run on a scene manager with a shader and a well-formed
registry: it runs to its end, leaves the registry untouched, and the values it
writes to the sampler are `FindTextureSlot` of the tags it passes to
`SetShaderTexture`, in call order. -/
theorem runCalls_spec {F : Type} [CommRing F] (T : Trig F) (uninit : OBJECT_MATERIAL F) :
    ∀ (calls : List (SceneCall F)) (s : SceneManager F) (sm : ShaderManager F),
      s.m_pShaderManager = some sm →
      s.m_loadedTextures ≤ (s.m_textureIDs.length : Int) →
      ∃ (s' : SceneManager F) (sm' : ShaderManager F),
        runCalls T uninit calls s = some s' ∧ s'.m_pShaderManager = some sm' ∧
        s'.m_textureIDs = s.m_textureIDs ∧ s'.m_loadedTextures = s.m_loadedTextures ∧
        samplerWrites sm' =
          samplerWrites sm ++ (textureTags calls).filterMap (FindTextureSlot s) := by
  intro calls
  induction calls with
  | nil =>
    intro s sm hsm _
    exact ⟨s, sm, rfl, hsm, rfl, rfl, by simp [textureTags]⟩
  | cons c rest ih =>
    intro s sm hsm hwf
    obtain ⟨s1, sm1, hrun1, hsm1, hids1, hcount1, hw1⟩ :=
      SceneCall_run_spec T uninit s sm c hsm hwf
    obtain ⟨s', sm', hrun, hsm', hids, hcount, hw⟩ :=
      ih s1 sm1 hsm1 (by rw [hids1, hcount1]; exact hwf)
    have hsame : FindTextureSlot s1 = FindTextureSlot s :=
      funext fun tag => FindTextureSlot_congr s1 s tag hids1 hcount1
    refine ⟨s', sm', ?_, hsm', hids.trans hids1, hcount.trans hcount1, ?_⟩
    · simp only [runCalls, hrun1]
      exact hrun
    · have hsplit : textureTags (c :: rest) = textureTags [c] ++ textureTags rest := by
        unfold textureTags
        rw [← List.filterMap_append]
        rfl
      rw [hw, hw1, hsame, List.append_assoc, ← List.filterMap_append, hsplit]

set_option maxHeartbeats 1000000 in
/-- The five loads of `LoadSceneTextures` on the empty registry, all files
readable, give `loadedScene`. -/
theorem LoadSceneTextures_allReadable {F : Type} :
    ∃ gl : GLState,
      LoadSceneTextures allReadable nextName (emptyScene : SceneManager F) emptyGL =
        some (loadedScene, gl) := by
  have h : (LoadSceneTextures allReadable nextName (emptyScene : SceneManager F) emptyGL).map
      (fun r => r.1) = some loadedScene := by
    simp [LoadSceneTextures, CreateGLTexture, allReadable, emptyScene, emptyGL,
      glGenTextures, GLState.issue, nextName, BindGLTextures, BindGLTextures.loop,
      loadedScene]
  cases hres : LoadSceneTextures allReadable nextName (emptyScene : SceneManager F) emptyGL with
  | none => simp [hres] at h
  | some r =>
    obtain ⟨s, gl⟩ := r
    simp only [hres, Option.map_some', Option.some.injEq] at h
    exact ⟨gl, by rw [h]⟩

set_option maxRecDepth 100000 in
/-- The tags `RenderScene` passes to `SetShaderTexture`, in program order. -/
theorem RenderScene_textureTags {F : Type} [Field F] (T : Trig F) (degrees : F → F) :
    textureTags (RenderScene T degrees) =
      ["street", "wall", "lamp", "bmat", "bmat", "blackmat", "blackmat"] ++
      List.replicate 51 "blackmat" ++
      ["wood", "wood", "wood", "wood", "wood", "bmat", "bmat", "bmat", "bmat", "bmat",
       "bmat", "bmat", "bmat", "bmat", "bmat", "wood"] := by
  rfl

/-- The slots of the six tags `RenderScene` uses, in the registry that
`LoadSceneTextures` builds: "blackmat" is not registered. -/
theorem loadedScene_slots {F : Type} :
    FindTextureSlot (loadedScene : SceneManager F) "street" = some 0 ∧
    FindTextureSlot (loadedScene : SceneManager F) "bmat" = some 1 ∧
    FindTextureSlot (loadedScene : SceneManager F) "wall" = some 2 ∧
    FindTextureSlot (loadedScene : SceneManager F) "lamp" = some 3 ∧
    FindTextureSlot (loadedScene : SceneManager F) "wood" = some 4 ∧
    FindTextureSlot (loadedScene : SceneManager F) "blackmat" = some (-1) := by
  refine ⟨?_, ?_, ?_, ?_, ?_, ?_⟩ <;>
    simp [FindTextureSlot, FindTextureSlot.loop, loadedScene]

theorem filterMap_replicate_some {α β : Type} (f : α → Option β) (a : α) (b : β)
    (h : f a = some b) : ∀ n : Nat,
    (List.replicate n a).filterMap f = List.replicate n b := by
  intro n
  induction n with
  | zero => rfl
  | succ k ih => simp [List.replicate_succ, List.filterMap_cons, h, ih]

/-! ## Claims -/

/-- C1: for a texture registry whose loaded entries lie in the table, and any
tag: if no loaded entry carries the tag, `FindTextureSlot` and `FindTextureID`
both return -1; otherwise there is a least loaded index `i` whose entry carries
the tag, `FindTextureSlot` returns `i` and `FindTextureID` returns the handle
stored in entry `i` (the `GLuint` as `int`: converting the result back gives the
stored 32-bit handle, and a handle below 2^31 is returned as the same number). -/
theorem C1_find_texture {F : Type} (s : SceneManager F) (tag : String)
    (hwf : s.m_loadedTextures ≤ (s.m_textureIDs.length : Int)) :
    ((∀ (i : Nat) (e : TEXTURE_INFO), (i : Int) < s.m_loadedTextures →
        s.m_textureIDs[i]? = some e → e.tag ≠ tag) →
      FindTextureSlot s tag = some (-1) ∧ FindTextureID s tag = some (-1)) ∧
    ((∃ (i : Nat) (e : TEXTURE_INFO), (i : Int) < s.m_loadedTextures ∧
        s.m_textureIDs[i]? = some e ∧ e.tag = tag) →
      ∃ (i : Nat) (e : TEXTURE_INFO), (0 : Int) ≤ i ∧ (i : Int) < s.m_loadedTextures ∧
        s.m_textureIDs[i]? = some e ∧ e.tag = tag ∧
        (∀ (j : Nat) (e' : TEXTURE_INFO), j < i →
          s.m_textureIDs[j]? = some e' → e'.tag ≠ tag) ∧
        FindTextureSlot s tag = some (i : Int) ∧
        FindTextureID s tag = some (toInt32 e.ID) ∧
        toUInt32 (toInt32 e.ID) = e.ID % 2 ^ 32 ∧
        (e.ID < 2 ^ 31 → FindTextureID s tag = some (e.ID : Int))) := by
  refine ⟨find_unregistered s tag hwf, ?_⟩
  intro h
  obtain ⟨i, e, hi, hget, htag, hfirst⟩ := exists_first_tag _ _ _ h
  obtain ⟨h1, h2⟩ := find_registered s tag i e hi hget htag hfirst
  refine ⟨i, e, by omega, hi, hget, htag, hfirst, h1, h2, toUInt32_toInt32 _, ?_⟩
  intro hsmall
  have hconv : toInt32 e.ID = (e.ID : Int) := by
    unfold toInt32
    rw [Nat.mod_eq_of_lt (by omega), if_pos hsmall]
  rw [h2, hconv]

/-- C1 at `sampleScene`: the unregistered tag "zz" gives -1 twice, and the
twice-registered tag "b" has a first match that both lookups report. -/
theorem C1_find_texture_witness :
    sampleScene.m_loadedTextures ≤ (sampleScene.m_textureIDs.length : Int) ∧
    (FindTextureSlot sampleScene "zz" = some (-1) ∧
      FindTextureID sampleScene "zz" = some (-1)) ∧
    (∃ (i : Nat) (e : TEXTURE_INFO), (0 : Int) ≤ i ∧ (i : Int) < sampleScene.m_loadedTextures ∧
        sampleScene.m_textureIDs[i]? = some e ∧ e.tag = "b" ∧
        (∀ (j : Nat) (e' : TEXTURE_INFO), j < i →
          sampleScene.m_textureIDs[j]? = some e' → e'.tag ≠ "b") ∧
        FindTextureSlot sampleScene "b" = some (i : Int) ∧
        FindTextureID sampleScene "b" = some (toInt32 e.ID) ∧
        toUInt32 (toInt32 e.ID) = e.ID % 2 ^ 32 ∧
        (e.ID < 2 ^ 31 → FindTextureID sampleScene "b" = some (e.ID : Int))) := by
  refine ⟨by decide, (C1_find_texture sampleScene "zz" (by decide)).1 ?_,
    (C1_find_texture sampleScene "b" (by decide)).2 ⟨1, ⟨"b", 9⟩, by decide, by decide, rfl⟩⟩
  intro i e hi hget
  have hi3 : i < 3 := by
    have : sampleScene.m_loadedTextures = 3 := rfl
    omega
  interval_cases i <;> simp [sampleScene] at hget <;> subst hget <;> decide

/-- C2: for every registry state, file and tag, if the image cannot be decoded,
or decodes with a channel count other than 3 or 4, `CreateGLTexture` returns
`false` and leaves the scene manager, hence `m_loadedTextures` and every
registered tag and handle, exactly as before the call. -/
theorem C2_create_failure_keeps_registry {F : Type} (stbi_load : String → Option Image)
    (gen : List Nat → Nat) (s : SceneManager F) (gl : GLState) (filename tag : String)
    (h : stbi_load filename = none ∨
      ∃ img : Image, stbi_load filename = some img ∧
        img.colorChannels ≠ 3 ∧ img.colorChannels ≠ 4) :
    ∃ gl' : GLState, CreateGLTexture stbi_load gen s gl filename tag = some (false, s, gl') := by
  rcases h with h | ⟨img, himg, h3, h4⟩
  · exact ⟨gl, by simp [CreateGLTexture, h]⟩
  · simp [CreateGLTexture, himg, glGenTextures, h3, h4]

/-- C2 at `sampleScene`: a missing file, and a one-channel image. -/
theorem C2_create_failure_keeps_registry_witness :
    (sampleFiles "textures/none.jpg" = none ∧
      ∃ gl' : GLState, CreateGLTexture sampleFiles nextName sampleScene sampleGL
        "textures/none.jpg" "none" = some (false, sampleScene, gl')) ∧
    ((∃ img : Image, sampleFiles "textures/grey.png" = some img ∧
        img.colorChannels ≠ 3 ∧ img.colorChannels ≠ 4) ∧
      ∃ gl' : GLState, CreateGLTexture sampleFiles nextName sampleScene sampleGL
        "textures/grey.png" "grey" = some (false, sampleScene, gl')) :=
  ⟨⟨by decide, C2_create_failure_keeps_registry sampleFiles nextName sampleScene sampleGL
      "textures/none.jpg" "none" (Or.inl (by decide))⟩,
   ⟨⟨⟨8, 8, 1⟩, by decide, by decide, by decide⟩,
    C2_create_failure_keeps_registry sampleFiles nextName sampleScene sampleGL
      "textures/grey.png" "grey" (Or.inr ⟨⟨8, 8, 1⟩, by decide, by decide, by decide⟩)⟩⟩

/-- C3, below the capacity of the table: for a registry with `n` loaded textures, `0 ≤ n` and `n`
below the capacity of the texture table, whose loaded handles are allocated GL
names, and an image that decodes with 3 or 4 channels: `CreateGLTexture` returns
`true`, sets `m_loadedTextures` to `n + 1`, stores the given tag and the handle
just generated by `glGenTextures` at index `n`, leaves every other slot (and the
rest of the object) unchanged, and the new handle differs from every handle
already in the registry. The loaded handles of the new registry are again
allocated GL names. -/
theorem C3_create_success {F : Type} (stbi_load : String → Option Image)
    (gen : List Nat → Nat) (s : SceneManager F) (gl : GLState) (filename tag : String)
    (img : Image) (hgen : FreshNames gen)
    (himg : stbi_load filename = some img)
    (hch : img.colorChannels = 3 ∨ img.colorChannels = 4)
    (h0 : 0 ≤ s.m_loadedTextures)
    (hcap : s.m_loadedTextures < (s.m_textureIDs.length : Int))
    (hreg : ∀ (i : Nat) (e : TEXTURE_INFO), (i : Int) < s.m_loadedTextures →
      s.m_textureIDs[i]? = some e → e.ID ∈ gl.textureNames) :
    ∃ (s' : SceneManager F) (gl' : GLState),
      CreateGLTexture stbi_load gen s gl filename tag = some (true, s', gl') ∧
      s'.m_loadedTextures = s.m_loadedTextures + 1 ∧
      s'.m_textureIDs[s.m_loadedTextures.toNat]? =
        some { tag := tag, ID := gen gl.textureNames } ∧
      (∀ j : Nat, j ≠ s.m_loadedTextures.toNat → s'.m_textureIDs[j]? = s.m_textureIDs[j]?) ∧
      s'.m_textureIDs.length = s.m_textureIDs.length ∧
      s'.m_objectMaterials = s.m_objectMaterials ∧
      s'.m_pShaderManager = s.m_pShaderManager ∧
      gen gl.textureNames ∉ gl.textureNames ∧
      gl'.textureNames = gen gl.textureNames :: gl.textureNames ∧
      GLCall.genTextures (gen gl.textureNames) ∈ gl'.calls ∧
      (∀ (i : Nat) (e : TEXTURE_INFO), (i : Int) < s.m_loadedTextures →
        s.m_textureIDs[i]? = some e → e.ID ≠ gen gl.textureNames) ∧
      (∀ (i : Nat) (e : TEXTURE_INFO), (i : Int) < s'.m_loadedTextures →
        s'.m_textureIDs[i]? = some e → e.ID ∈ gl'.textureNames) := by
  have hlt : s.m_loadedTextures.toNat < s.m_textureIDs.length := by omega
  have hfresh := (hgen gl.textureNames).1
  have hdiff : ∀ (i : Nat) (e : TEXTURE_INFO), (i : Int) < s.m_loadedTextures →
      s.m_textureIDs[i]? = some e → e.ID ≠ gen gl.textureNames := by
    intro i e hi hget heq
    exact hfresh (heq ▸ hreg i e hi hget)
  have hkeep : ∀ (names : List Nat) (i : Nat) (e : TEXTURE_INFO),
      names = gen gl.textureNames :: gl.textureNames →
      (i : Int) < s.m_loadedTextures + 1 →
      (s.m_textureIDs.set s.m_loadedTextures.toNat
        { tag := tag, ID := gen gl.textureNames })[i]? = some e → e.ID ∈ names := by
    intro names i e hnames hi hget
    subst hnames
    by_cases hin : i = s.m_loadedTextures.toNat
    · subst hin
      simp only [List.getElem?_set_self hlt, Option.some.injEq] at hget
      rw [← hget]
      exact List.mem_cons_self _ _
    · simp only [List.getElem?_set_ne (Ne.symm hin)] at hget
      exact List.mem_cons_of_mem _ (hreg i e (by omega) hget)
  have hch' : img.colorChannels = 3 ∨ (¬ img.colorChannels = 3 ∧ img.colorChannels = 4) := by
    omega
  rcases hch' with h3 | ⟨hn3, h4⟩
  · simp only [CreateGLTexture, himg, glGenTextures, h3, h0, hlt, and_self, if_true]
    refine ⟨_, _, rfl, rfl, List.getElem?_set_self hlt,
      fun j hj => List.getElem?_set_ne (Ne.symm hj), List.length_set _ _ _, rfl, rfl,
      hfresh, rfl, ?_, hdiff, fun i e hi hget => hkeep _ i e rfl hi hget⟩
    simp [GLState.issue]
  · simp only [CreateGLTexture, himg, glGenTextures, hn3, h4, h0, hlt, and_self, if_true,
      if_false]
    refine ⟨_, _, rfl, rfl, List.getElem?_set_self hlt,
      fun j hj => List.getElem?_set_ne (Ne.symm hj), List.length_set _ _ _, rfl, rfl,
      hfresh, rfl, ?_, hdiff, fun i e hi hget => hkeep _ i e rfl hi hget⟩
    simp [GLState.issue]

/-- C3 at `sampleScene`: loading the RGB image "textures/wood.jpg" under the tag
"wood" into the registry of three textures. -/
theorem C3_create_success_witness :
    ∃ (s' : SceneManager Int) (gl' : GLState),
      CreateGLTexture sampleFiles nextName sampleScene sampleGL "textures/wood.jpg" "wood" =
        some (true, s', gl') ∧
      s'.m_loadedTextures = sampleScene.m_loadedTextures + 1 ∧
      s'.m_textureIDs[sampleScene.m_loadedTextures.toNat]? =
        some { tag := "wood", ID := nextName sampleGL.textureNames } ∧
      (∀ j : Nat, j ≠ sampleScene.m_loadedTextures.toNat →
        s'.m_textureIDs[j]? = sampleScene.m_textureIDs[j]?) ∧
      s'.m_textureIDs.length = sampleScene.m_textureIDs.length ∧
      s'.m_objectMaterials = sampleScene.m_objectMaterials ∧
      s'.m_pShaderManager = sampleScene.m_pShaderManager ∧
      nextName sampleGL.textureNames ∉ sampleGL.textureNames ∧
      gl'.textureNames = nextName sampleGL.textureNames :: sampleGL.textureNames ∧
      GLCall.genTextures (nextName sampleGL.textureNames) ∈ gl'.calls ∧
      (∀ (i : Nat) (e : TEXTURE_INFO), (i : Int) < sampleScene.m_loadedTextures →
        sampleScene.m_textureIDs[i]? = some e → e.ID ≠ nextName sampleGL.textureNames) ∧
      (∀ (i : Nat) (e : TEXTURE_INFO), (i : Int) < s'.m_loadedTextures →
        s'.m_textureIDs[i]? = some e → e.ID ∈ gl'.textureNames) := by
  refine C3_create_success sampleFiles nextName sampleScene sampleGL "textures/wood.jpg" "wood"
    ⟨64, 32, 3⟩ nextName_fresh (by decide) (by decide) (by decide) (by decide) ?_
  intro i e hi hget
  have hi3 : i < 3 := by
    have : sampleScene.m_loadedTextures = 3 := rfl
    omega
  interval_cases i <;> simp [sampleScene] at hget <;> subst hget <;> decide

/-- C3 fails as stated at a full table: with all 16 slots loaded and a readable
RGB image, `CreateGLTexture` writes slot 16, outside the table, and has no
defined result. -/
theorem C3_counterexample_full_table :
    fullScene.m_loadedTextures = 16 ∧ fullScene.m_textureIDs.length = 16 ∧
    sampleFiles "textures/wood.jpg" = some { width := 64, height := 32, colorChannels := 3 } ∧
    CreateGLTexture sampleFiles nextName fullScene fullGL "textures/wood.jpg" "wood" = none := by
  refine ⟨rfl, rfl, by decide, ?_⟩
  simp [CreateGLTexture, sampleFiles, fullScene, glGenTextures]

/-- C4: for a registry with `N` loaded textures (all inside the table),
`BindGLTextures` appends to the GL trace exactly `2 N` calls: for each `i` in
`0..N-1`, in increasing order, `glActiveTexture(GL_TEXTURE0 + i)` followed by
`glBindTexture(GL_TEXTURE_2D, handle of entry i)`. Afterwards unit `i` holds the
handle of entry `i` for `i < N`, the binding of every unit `u ≥ N` is what it
was, and for every registered tag the handle bound to unit `FindTextureSlot(tag)`
is the one `FindTextureID(tag)` returns. -/
theorem C4_bind_textures {F : Type} (s : SceneManager F) (gl : GLState)
    (hwf : s.m_loadedTextures ≤ (s.m_textureIDs.length : Int)) :
    ∃ (gl' : GLState) (issued : List GLCall),
      BindGLTextures s gl = some gl' ∧
      gl'.textureNames = gl.textureNames ∧
      gl'.calls = gl.calls ++ issued ∧
      issued = expectedBindings (s.m_textureIDs.take s.m_loadedTextures.toNat) 0 ∧
      issued.length = 2 * s.m_loadedTextures.toNat ∧
      (∀ (i : Nat) (e : TEXTURE_INFO), (i : Int) < s.m_loadedTextures →
        s.m_textureIDs[i]? = some e →
          issued[2 * i]? = some (GLCall.activeTexture i) ∧
          issued[2 * i + 1]? = some (GLCall.bindTexture2D e.ID) ∧
          boundTexture2D gl'.calls i = e.ID) ∧
      (∀ u : Nat, s.m_loadedTextures ≤ (u : Int) →
        boundTexture2D gl'.calls u = boundTexture2D gl.calls u) ∧
      (∀ tag : String,
        (∃ (i : Nat) (e : TEXTURE_INFO), (i : Int) < s.m_loadedTextures ∧
          s.m_textureIDs[i]? = some e ∧ e.tag = tag) →
        ∃ k : Nat, FindTextureSlot s tag = some (k : Int) ∧
          FindTextureID s tag = some (toInt32 (boundTexture2D gl'.calls k))) := by
  have hrun := BindGLTextures_loop_spec s hwf (s.m_loadedTextures.toNat + 1) 0 gl
    (by omega) (Nat.zero_le _)
  rw [List.drop_zero] at hrun
  have hlen : (s.m_textureIDs.take s.m_loadedTextures.toNat).length =
      s.m_loadedTextures.toNat := by
    rw [List.length_take]
    omega
  have htake : ∀ (i : Nat) (e : TEXTURE_INFO), (i : Int) < s.m_loadedTextures →
      s.m_textureIDs[i]? = some e →
      (s.m_textureIDs.take s.m_loadedTextures.toNat)[i]? = some e := by
    intro i e hi hget
    rw [List.getElem?_take_of_lt (by omega)]
    exact hget
  obtain ⟨hb, hout⟩ := foldl_step_expectedBindings
    (s.m_textureIDs.take s.m_loadedTextures.toNat) 0 (unitState gl.calls)
  have hbound : ∀ (i : Nat) (e : TEXTURE_INFO), (i : Int) < s.m_loadedTextures →
      s.m_textureIDs[i]? = some e →
      boundTexture2D (gl.calls ++
        expectedBindings (s.m_textureIDs.take s.m_loadedTextures.toNat) 0) i = e.ID := by
    intro i e hi hget
    have := hb i e (htake i e hi hget)
    simpa [boundTexture2D, unitState, List.foldl_append] using this
  refine ⟨_, _, hrun, rfl, rfl, rfl, ?_, ?_, ?_, ?_⟩
  · rw [expectedBindings_length, hlen]
  · intro i e hi hget
    obtain ⟨h1, h2⟩ := expectedBindings_getElem? _ 0 i e (htake i e hi hget)
    rw [Nat.zero_add] at h1
    exact ⟨h1, h2, hbound i e hi hget⟩
  · intro u hu
    have := hout u (Or.inr (by rw [hlen]; omega))
    simpa [boundTexture2D, unitState, List.foldl_append] using this
  · intro tag h
    obtain ⟨i, e, hi, hget, htag, hfirst⟩ := exists_first_tag _ _ _ h
    obtain ⟨h1, h2⟩ := find_registered s tag i e hi hget htag hfirst
    exact ⟨i, h1, by rw [h2, hbound i e hi hget]⟩

/-- C4 at `sampleScene`: three loaded textures give six calls. -/
theorem C4_bind_textures_witness :
    ∃ (gl' : GLState) (issued : List GLCall),
      BindGLTextures sampleScene sampleGL = some gl' ∧
      gl'.textureNames = sampleGL.textureNames ∧
      gl'.calls = sampleGL.calls ++ issued ∧
      issued = expectedBindings
        (sampleScene.m_textureIDs.take sampleScene.m_loadedTextures.toNat) 0 ∧
      issued.length = 2 * sampleScene.m_loadedTextures.toNat ∧
      (∀ (i : Nat) (e : TEXTURE_INFO), (i : Int) < sampleScene.m_loadedTextures →
        sampleScene.m_textureIDs[i]? = some e →
          issued[2 * i]? = some (GLCall.activeTexture i) ∧
          issued[2 * i + 1]? = some (GLCall.bindTexture2D e.ID) ∧
          boundTexture2D gl'.calls i = e.ID) ∧
      (∀ u : Nat, sampleScene.m_loadedTextures ≤ (u : Int) →
        boundTexture2D gl'.calls u = boundTexture2D sampleGL.calls u) ∧
      (∀ tag : String,
        (∃ (i : Nat) (e : TEXTURE_INFO), (i : Int) < sampleScene.m_loadedTextures ∧
          sampleScene.m_textureIDs[i]? = some e ∧ e.tag = tag) →
        ∃ k : Nat, FindTextureSlot sampleScene tag = some (k : Int) ∧
          FindTextureID sampleScene tag = some (toInt32 (boundTexture2D gl'.calls k))) :=
  C4_bind_textures sampleScene sampleGL (by decide)

/-- C5: for real scale `s`, rotation angles `rx ry rz` in degrees and translation
`t`, and a non-null shader interface, `SetTransformations` writes to the uniform
"model" the matrix `Translate(t) * RotZ(rz) * RotY(ry) * RotX(rx) * Scale(s)`
with the angles converted to radians; it maps an object-space point `p` to
`t + RotZ(RotY(RotX(s scaled componentwise onto p)))`. With scale (2,1,1),
rotation (0,90,0) and translation (1,0,0) the point (1,0,0) goes to (1,0,-2). -/
theorem C5_model_matrix (s : SceneManager ℝ) (sm : ShaderManager ℝ)
    (scaleXYZ : Vec3 ℝ) (rx ry rz : ℝ) (positionXYZ : Vec3 ℝ)
    (hsm : s.m_pShaderManager = some sm) :
    ∃ (T : Trig ℝ) (M : Mat4 ℝ),
      T = { radians := fun d => d * Real.pi / 180, cos := Real.cos, sin := Real.sin } ∧
      SetTransformations T s scaleXYZ rx ry rz positionXYZ =
        { s with
          m_pShaderManager := some (sm.record (ShaderCall.setMat4Value "model" M)) } ∧
      (sm.record (ShaderCall.setMat4Value "model" M)).uniform "model" =
        some (ShaderCall.setMat4Value "model" M) ∧
      M = glm_translate positionXYZ *
          glm_rotate T (rz * Real.pi / 180) { x := 0, y := 0, z := 1 } *
          glm_rotate T (ry * Real.pi / 180) { x := 0, y := 1, z := 0 } *
          glm_rotate T (rx * Real.pi / 180) { x := 1, y := 0, z := 0 } *
          glm_scale scaleXYZ ∧
      (∀ p : Vec3 ℝ, transformPoint M p =
        translateBy positionXYZ
          (rotZ T (rz * Real.pi / 180) (rotY T (ry * Real.pi / 180)
            (rotX T (rx * Real.pi / 180) (scaleBy scaleXYZ p))))) ∧
      transformPoint (modelView T { x := 2, y := 1, z := 1 } 0 90 0 { x := 1, y := 0, z := 0 })
        { x := 1, y := 0, z := 0 } = { x := 1, y := 0, z := -2 } := by
  refine ⟨{ radians := fun d => d * Real.pi / 180, cos := Real.cos, sin := Real.sin },
    _, rfl, ?_, ?_, rfl, ?_, ?_⟩
  · simp only [SetTransformations, hsm]
    rfl
  · simp [ShaderManager.uniform, ShaderManager.record, ShaderCall.name]
  · intro p
    exact transformPoint_modelView _ scaleXYZ rx ry rz positionXYZ p
  · rw [transformPoint_modelView]
    have h90 : (90 : ℝ) * Real.pi / 180 = Real.pi / 2 := by ring
    simp [translateBy, rotZ, rotY, rotX, scaleBy, h90]

/-- C5 at a scene with an empty recording shader: the matrix written for scale
(2,1,1), rotation (0,90,0), translation (1,0,0) sends (1,0,0) to (1,0,-2). -/
theorem C5_model_matrix_witness :
    ∃ (T : Trig ℝ) (M : Mat4 ℝ),
      T = { radians := fun d => d * Real.pi / 180, cos := Real.cos, sin := Real.sin } ∧
      (SetTransformations T
        { m_pShaderManager := some { calls := [] }, m_textureIDs := [],
          m_loadedTextures := 0, m_objectMaterials := [] }
        { x := 2, y := 1, z := 1 } 0 90 0 { x := 1, y := 0, z := 0 }).m_pShaderManager =
        some { calls := [ShaderCall.setMat4Value "model" M] } ∧
      transformPoint M { x := 1, y := 0, z := 0 } = { x := 1, y := 0, z := -2 } := by
  obtain ⟨T, M, hT, hrun, _, hM, _, hvec⟩ :=
    C5_model_matrix
      { m_pShaderManager := some { calls := [] }, m_textureIDs := [],
        m_loadedTextures := 0, m_objectMaterials := [] }
      { calls := [] } { x := 2, y := 1, z := 1 } 0 90 0 { x := 1, y := 0, z := 0 } rfl
  refine ⟨T, M, hT, ?_, ?_⟩
  · rw [hrun]
    rfl
  · rw [hM, ← hvec, hT]
    rfl

/-- C6 (what the code does): with a non-empty material registry, a non-null
shader and a tag that no registered material carries, `SetShaderMaterial` does
write `material.diffuseColor`, `material.specularColor` and
`material.shininess`, with the indeterminate content `uninit` of its
uninitialised local: `FindMaterial` returns `true` although nothing was found. -/
theorem C6_unknown_tag_still_uploads {F : Type} (s : SceneManager F) (sm : ShaderManager F)
    (tag : String) (uninit : OBJECT_MATERIAL F)
    (hsm : s.m_pShaderManager = some sm) (hne : s.m_objectMaterials ≠ [])
    (hno : ∀ (j : Nat) (m : OBJECT_MATERIAL F),
      s.m_objectMaterials[j]? = some m → m.tag ≠ tag) :
    FindMaterial s tag uninit = some (true, uninit) ∧
    SetShaderMaterial s tag uninit =
      some { s with
        m_pShaderManager := some { calls := sm.calls ++
          [ShaderCall.setVec3Value "material.diffuseColor" uninit.diffuseColor,
           ShaderCall.setVec3Value "material.specularColor" uninit.specularColor,
           ShaderCall.setFloatValue "material.shininess" uninit.shininess] } } := by
  have hfind := FindMaterial_unknown_tag s tag uninit hne hno
  have hlen : s.m_objectMaterials.length > 0 := List.length_pos.mpr hne
  refine ⟨hfind, ?_⟩
  simp [SetShaderMaterial, hlen, hfind, hsm, ShaderManager.record]

/-- C6 at `sampleScene` (materials "Lamp", "Brick", "Lamp") and the unknown tag
"Glass": three uniform writes are recorded. -/
theorem C6_unknown_tag_still_uploads_witness :
    FindMaterial sampleScene "Glass" garbageMaterial = some (true, garbageMaterial) ∧
    SetShaderMaterial sampleScene "Glass" garbageMaterial =
      some { sampleScene with
        m_pShaderManager := some { calls := [] ++
          [ShaderCall.setVec3Value "material.diffuseColor" garbageMaterial.diffuseColor,
           ShaderCall.setVec3Value "material.specularColor" garbageMaterial.specularColor,
           ShaderCall.setFloatValue "material.shininess" garbageMaterial.shininess] } } := by
  refine C6_unknown_tag_still_uploads sampleScene { calls := [] } "Glass" garbageMaterial
    rfl (by simp [sampleScene]) ?_
  intro j m hget
  have hj : j < 3 := by
    rcases List.getElem?_eq_some.mp hget with ⟨h, _⟩
    simpa [sampleScene] using h
  interval_cases j <;> simp [sampleScene] at hget <;> subst hget <;> decide

/-- C7 fails as stated when the shader interface is null: `SetShaderMaterial`
dereferences `m_pShaderManager` without the null test that `SetTransformations`,
`SetShaderColor`, `SetShaderTexture` and `SetTextureUVScale` make. At
`sampleScene` with a null shader and the registered tag "Lamp", `FindMaterial`
still returns `true` with the values of material 0, but `SetShaderMaterial` has
no defined result and uploads nothing. -/
theorem C7_counterexample_null_shader :
    ({ sampleScene with m_pShaderManager := none } : SceneManager Int).m_objectMaterials[0]? =
      some { diffuseColor := ⟨1, 1, 1⟩, specularColor := ⟨8, 8, 8⟩, shininess := 64,
             tag := "Lamp" } ∧
    FindMaterial ({ sampleScene with m_pShaderManager := none } : SceneManager Int) "Lamp"
        garbageMaterial =
      some (true, { garbageMaterial with
        diffuseColor := ⟨1, 1, 1⟩, specularColor := ⟨8, 8, 8⟩, shininess := 64 }) ∧
    SetShaderMaterial ({ sampleScene with m_pShaderManager := none } : SceneManager Int)
      "Lamp" garbageMaterial = none := by
  refine ⟨rfl, ?_, ?_⟩
  · simp [FindMaterial, FindMaterial.loop, sampleScene]
  · simp [SetShaderMaterial, FindMaterial, FindMaterial.loop, sampleScene]

/-- C7, with a non-null shader interface: for every material registry and every
tag carried by some registered material, `FindMaterial` returns `true` and sets
the output's `diffuseColor`, `specularColor` and `shininess` to those of the
lowest-index entry with the tag; the call has no effect on the registry; and
`SetShaderMaterial` then records exactly the three writes of those values,
leaving the registry as it was. -/
theorem C7_material_first_match {F : Type} (s : SceneManager F) (sm : ShaderManager F)
    (tag : String) (material uninit : OBJECT_MATERIAL F)
    (hsm : s.m_pShaderManager = some sm)
    (h : ∃ (i : Nat) (m : OBJECT_MATERIAL F), s.m_objectMaterials[i]? = some m ∧ m.tag = tag) :
    ∃ (i : Nat) (m : OBJECT_MATERIAL F) (s' : SceneManager F),
      s.m_objectMaterials[i]? = some m ∧ m.tag = tag ∧
      (∀ (j : Nat) (m' : OBJECT_MATERIAL F), j < i →
        s.m_objectMaterials[j]? = some m' → m'.tag ≠ tag) ∧
      FindMaterial s tag material =
        some (true, { material with
          diffuseColor := m.diffuseColor
          specularColor := m.specularColor
          shininess := m.shininess }) ∧
      SetShaderMaterial s tag uninit = some s' ∧
      s'.m_objectMaterials = s.m_objectMaterials ∧
      s'.m_textureIDs = s.m_textureIDs ∧ s'.m_loadedTextures = s.m_loadedTextures ∧
      s'.m_pShaderManager = some { calls := sm.calls ++
        [ShaderCall.setVec3Value "material.diffuseColor" m.diffuseColor,
         ShaderCall.setVec3Value "material.specularColor" m.specularColor,
         ShaderCall.setFloatValue "material.shininess" m.shininess] } := by
  obtain ⟨i, m, hget, htag, hfirst⟩ := exists_first_material _ _ h
  have hilen : i < s.m_objectMaterials.length := by
    rcases List.getElem?_eq_some.mp hget with ⟨hlt, _⟩
    exact hlt
  have hlen : s.m_objectMaterials.length ≠ 0 := by omega
  have hfind : ∀ mat : OBJECT_MATERIAL F, FindMaterial s tag mat =
      some (true, { mat with
        diffuseColor := m.diffuseColor
        specularColor := m.specularColor
        shininess := m.shininess }) := by
    intro mat
    unfold FindMaterial
    rw [if_neg hlen, FindMaterial_loop_hit s.m_objectMaterials tag i m hget htag _ 0 mat
      (Nat.zero_le _) (by omega) (fun j m' _ => hfirst j m')]
  have hpos : s.m_objectMaterials.length > 0 := by omega
  have hrun : SetShaderMaterial s tag uninit =
      some { s with
        m_pShaderManager := some { calls := sm.calls ++
          [ShaderCall.setVec3Value "material.diffuseColor" m.diffuseColor,
           ShaderCall.setVec3Value "material.specularColor" m.specularColor,
           ShaderCall.setFloatValue "material.shininess" m.shininess] } } := by
    simp [SetShaderMaterial, hpos, hfind uninit, hsm, ShaderManager.record]
  exact ⟨i, m, _, hget, htag, hfirst, hfind material, hrun, rfl, rfl, rfl, rfl⟩

/-- C8: for every tag, when the material registry is empty `SetShaderMaterial`
returns with the whole state, the recorded shader calls included, unchanged. -/
theorem C8_empty_registry_no_write {F : Type} (s : SceneManager F) (tag : String)
    (uninit : OBJECT_MATERIAL F) (hempty : s.m_objectMaterials = []) :
    SetShaderMaterial s tag uninit = some s := by
  simp [SetShaderMaterial, hempty]

/-- C7 at `sampleScene` and the tag "Lamp", carried by materials 0 and 2. -/
theorem C7_material_first_match_witness :
    ∃ (i : Nat) (m : OBJECT_MATERIAL Int) (s' : SceneManager Int),
      sampleScene.m_objectMaterials[i]? = some m ∧ m.tag = "Lamp" ∧
      (∀ (j : Nat) (m' : OBJECT_MATERIAL Int), j < i →
        sampleScene.m_objectMaterials[j]? = some m' → m'.tag ≠ "Lamp") ∧
      FindMaterial sampleScene "Lamp" garbageMaterial =
        some (true, { garbageMaterial with
          diffuseColor := m.diffuseColor
          specularColor := m.specularColor
          shininess := m.shininess }) ∧
      SetShaderMaterial sampleScene "Lamp" garbageMaterial = some s' ∧
      s'.m_objectMaterials = sampleScene.m_objectMaterials ∧
      s'.m_textureIDs = sampleScene.m_textureIDs ∧
      s'.m_loadedTextures = sampleScene.m_loadedTextures ∧
      s'.m_pShaderManager = some { calls := [] ++
        [ShaderCall.setVec3Value "material.diffuseColor" m.diffuseColor,
         ShaderCall.setVec3Value "material.specularColor" m.specularColor,
         ShaderCall.setFloatValue "material.shininess" m.shininess] } :=
  C7_material_first_match sampleScene { calls := [] } "Lamp" garbageMaterial garbageMaterial
    rfl ⟨2, _, rfl, rfl⟩

/-- C8 at `sampleScene` with its materials removed. -/
theorem C8_empty_registry_no_write_witness :
    SetShaderMaterial { sampleScene with m_objectMaterials := [] } "Lamp" garbageMaterial =
      some { sampleScene with m_objectMaterials := [] } :=
  C8_empty_registry_no_write { sampleScene with m_objectMaterials := [] } "Lamp"
    garbageMaterial rfl

/-- C9: with a non-null shader interface (and the loaded textures inside the
table), for every colour and texture tag: after `SetShaderColor` followed by
`SetShaderTexture` the uniform `bUseTexture` holds true (1); after
`SetShaderTexture` followed by `SetShaderColor` it holds false (0) and
`objectColor` holds (r,g,b,a). -/
theorem C9_last_mode_wins {F : Type} (s : SceneManager F) (sm : ShaderManager F)
    (r g b a : F) (tag : String)
    (hsm : s.m_pShaderManager = some sm)
    (hwf : s.m_loadedTextures ≤ (s.m_textureIDs.length : Int)) :
    (∃ (s1 : SceneManager F) (sm1 : ShaderManager F),
      SetShaderTexture (SetShaderColor s r g b a) tag = some s1 ∧
      s1.m_pShaderManager = some sm1 ∧
      sm1.uniform "bUseTexture" = some (ShaderCall.setIntValue "bUseTexture" 1)) ∧
    (∃ (s1 : SceneManager F) (sm2 : ShaderManager F),
      SetShaderTexture s tag = some s1 ∧
      (SetShaderColor s1 r g b a).m_pShaderManager = some sm2 ∧
      sm2.uniform "bUseTexture" = some (ShaderCall.setIntValue "bUseTexture" 0) ∧
      sm2.uniform "objectColor" =
        some (ShaderCall.setVec4Value "objectColor" { r := r, g := g, b := b, a := a })) := by
  constructor
  · have hwf' : (SetShaderColor s r g b a).m_loadedTextures ≤
        ((SetShaderColor s r g b a).m_textureIDs.length : Int) := by
      simpa [SetShaderColor, hsm] using hwf
    obtain ⟨k, hk⟩ := FindTextureSlot_defined (SetShaderColor s r g b a) tag hwf'
    have hsm' : (SetShaderColor s r g b a).m_pShaderManager =
        some ((sm.record (ShaderCall.setIntValue "bUseTexture" 0)).record
          (ShaderCall.setVec4Value "objectColor" { r := r, g := g, b := b, a := a })) := by
      simp [SetShaderColor, hsm]
    simp only [SetShaderTexture, hsm', hk]
    refine ⟨_, _, rfl, rfl, ?_⟩
    simp [ShaderManager.uniform, ShaderManager.record, ShaderCall.name]
  · obtain ⟨k, hk⟩ := FindTextureSlot_defined s tag hwf
    simp only [SetShaderTexture, hsm, hk, SetShaderColor]
    refine ⟨_, _, rfl, rfl, ?_, ?_⟩
    · simp [ShaderManager.uniform, ShaderManager.record, ShaderCall.name]
    · simp [ShaderManager.uniform, ShaderManager.record, ShaderCall.name]

/-- C9 at `sampleScene`, the colour (1,0,0,1) and the tag "a". -/
theorem C9_last_mode_wins_witness :
    (∃ (s1 : SceneManager Int) (sm1 : ShaderManager Int),
      SetShaderTexture (SetShaderColor sampleScene 1 0 0 1) "a" = some s1 ∧
      s1.m_pShaderManager = some sm1 ∧
      sm1.uniform "bUseTexture" = some (ShaderCall.setIntValue "bUseTexture" 1)) ∧
    (∃ (s1 : SceneManager Int) (sm2 : ShaderManager Int),
      SetShaderTexture sampleScene "a" = some s1 ∧
      (SetShaderColor s1 1 0 0 1).m_pShaderManager = some sm2 ∧
      sm2.uniform "bUseTexture" = some (ShaderCall.setIntValue "bUseTexture" 0) ∧
      sm2.uniform "objectColor" =
        some (ShaderCall.setVec4Value "objectColor"
          ({ r := 1, g := 0, b := 0, a := 1 } : Vec4 Int))) :=
  C9_last_mode_wins sampleScene { calls := [] } 1 0 0 1 "a" rfl (by decide)

/-- C10: with a non-null shader interface (and the loaded textures inside the
table), for every registry and tag, `SetShaderTexture` records exactly two
writes, `bUseTexture := true (1)` and then `objectTexture := FindTextureSlot(tag)`,
and returns normally; both uniforms then hold these values, and for a tag that
is not registered the sampler index written is -1. -/
theorem C10_set_shader_texture {F : Type} (s : SceneManager F) (sm : ShaderManager F)
    (tag : String) (hsm : s.m_pShaderManager = some sm)
    (hwf : s.m_loadedTextures ≤ (s.m_textureIDs.length : Int)) :
    ∃ (k : Int) (sm' : ShaderManager F),
      FindTextureSlot s tag = some k ∧
      sm'.calls = sm.calls ++
        [ShaderCall.setIntValue "bUseTexture" 1,
         ShaderCall.setSampler2DValue "objectTexture" k] ∧
      SetShaderTexture s tag = some { s with m_pShaderManager := some sm' } ∧
      sm'.uniform "bUseTexture" = some (ShaderCall.setIntValue "bUseTexture" 1) ∧
      sm'.uniform "objectTexture" = some (ShaderCall.setSampler2DValue "objectTexture" k) ∧
      ((∀ (i : Nat) (e : TEXTURE_INFO), (i : Int) < s.m_loadedTextures →
          s.m_textureIDs[i]? = some e → e.tag ≠ tag) → k = -1) := by
  obtain ⟨k, hk⟩ := FindTextureSlot_defined s tag hwf
  refine ⟨k, { calls := sm.calls ++
    [ShaderCall.setIntValue "bUseTexture" 1,
     ShaderCall.setSampler2DValue "objectTexture" k] }, hk, rfl, ?_, ?_, ?_, ?_⟩
  · simp [SetShaderTexture, hsm, hk, ShaderManager.record]
  · simp [ShaderManager.uniform, ShaderCall.name]
  · simp [ShaderManager.uniform, ShaderCall.name]
  · intro hno
    have h := (find_unregistered s tag hwf hno).1
    rw [hk] at h
    exact Option.some.inj h

/-- C10 at `sampleScene`: the unregistered tag "blackmat" uploads -1. -/
theorem C10_set_shader_texture_witness :
    ∃ (k : Int) (sm' : ShaderManager Int),
      FindTextureSlot sampleScene "blackmat" = some k ∧
      sm'.calls = [] ++
        [ShaderCall.setIntValue "bUseTexture" 1,
         ShaderCall.setSampler2DValue "objectTexture" k] ∧
      SetShaderTexture sampleScene "blackmat" =
        some { sampleScene with m_pShaderManager := some sm' } ∧
      sm'.uniform "bUseTexture" = some (ShaderCall.setIntValue "bUseTexture" 1) ∧
      sm'.uniform "objectTexture" = some (ShaderCall.setSampler2DValue "objectTexture" k) ∧
      ((∀ (i : Nat) (e : TEXTURE_INFO), (i : Int) < sampleScene.m_loadedTextures →
          sampleScene.m_textureIDs[i]? = some e → e.tag ≠ "blackmat") → k = -1) :=
  C10_set_shader_texture sampleScene { calls := [] } "blackmat" rfl (by decide)

/-- C14 fails as stated: over the reals, not every draw of `RenderScene` is
preceded by model matrix, then texture or colour, then material. The lamp head
(third draw) sets the material before the texture, and each of the 51 arm
segments sets the texture before the model matrix. -/
theorem C14_counterexample_call_order :
    ¬ ∀ group ∈ drawGroups ((RenderScene
        ({ radians := fun d => d * Real.pi / 180, cos := Real.cos, sin := Real.sin } : Trig ℝ)
        (fun r => r * 180 / Real.pi)).map SceneCall.kind),
      ProtocolOrder group := by
  rw [RenderScene_drawGroups]
  decide

set_option maxRecDepth 100000 in
/-- C14, order left open where the code leaves it: `RenderScene` issues 74 draw
calls, and for every draw call the calls issued since the previous draw call (or
since the start) are exactly one model-matrix write, exactly one
texture-or-colour write and at most one material write, and no other call. The
model-matrix write comes first and the material write last, except that the lamp
head (draw 3) has the material before the texture and the 51 arm segments (draws
8 to 58) have the texture before the model matrix. -/
theorem C14_draw_groups {F : Type} [Field F] (T : Trig F) (degrees : F → F) :
    (drawGroups ((RenderScene T degrees).map SceneCall.kind)).length = 74 ∧
    ((RenderScene T degrees).map SceneCall.kind).count CallKind.draw = 74 ∧
    ((RenderScene T degrees).map SceneCall.kind).getLast? = some CallKind.draw ∧
    (∀ group ∈ drawGroups ((RenderScene T degrees).map SceneCall.kind),
      ProtocolContent group) ∧
    (∀ (i : Nat) (group : List CallKind),
      (drawGroups ((RenderScene T degrees).map SceneCall.kind))[i]? = some group →
        (i ≠ 2 → ¬ (7 ≤ i ∧ i < 58) → ProtocolOrder group) ∧
        (i = 2 → group =
          [CallKind.modelMatrix, CallKind.material, CallKind.textureOrColour]) ∧
        (7 ≤ i ∧ i < 58 → group = [CallKind.textureOrColour, CallKind.modelMatrix])) := by
  refine ⟨?_, ?_, ?_, ?_, ?_⟩
  · rw [RenderScene_drawGroups]
    rfl
  · rw [RenderScene_kinds]
    decide
  · rw [RenderScene_kinds]
    decide
  · rw [RenderScene_drawGroups]
    decide
  · rw [RenderScene_drawGroups]
    intro i group hget
    have hi : i < 74 := by
      rcases List.getElem?_eq_some.mp hget with ⟨h, _⟩
      simpa using h
    interval_cases i <;>
      simp [List.replicate] at hget <;> subst hget <;> simp [ProtocolOrder]

/-- C11 (what the code does): for a registry with at least one loaded texture,
all inside the table and with allocated handles, `DestroyGLTextures` releases
nothing: every handle that was registered is still an allocated name afterwards,
and one further name per loaded texture has been allocated. A second call
allocates as many names again, so it does not leave the GL state as the first
call left it. -/
theorem C11_destroy_allocates_more {F : Type} (gen : List Nat → Nat)
    (s : SceneManager F) (gl : GLState)
    (hwf : s.m_loadedTextures ≤ (s.m_textureIDs.length : Int))
    (hpos : 0 < s.m_loadedTextures)
    (hreg : ∀ (i : Nat) (e : TEXTURE_INFO), (i : Int) < s.m_loadedTextures →
      s.m_textureIDs[i]? = some e → e.ID ∈ gl.textureNames) :
    ∃ (s1 s2 : SceneManager F) (gl1 gl2 : GLState),
      DestroyGLTextures gen s gl = some (s1, gl1) ∧
      (∀ (i : Nat) (e : TEXTURE_INFO), (i : Int) < s.m_loadedTextures →
        s.m_textureIDs[i]? = some e → e.ID ∈ gl1.textureNames) ∧
      gl1.textureNames.length = gl.textureNames.length + s.m_loadedTextures.toNat ∧
      DestroyGLTextures gen s1 gl1 = some (s2, gl2) ∧
      gl2.textureNames.length = gl1.textureNames.length + s.m_loadedTextures.toNat ∧
      gl2 ≠ gl1 := by
  obtain ⟨s1, gl1, hrun1, hl1, hlen1, hsub1, hcount1⟩ :=
    DestroyGLTextures_loop_spec gen (s.m_loadedTextures.toNat + 1) 0 s gl hwf (by omega)
  obtain ⟨s2, gl2, hrun2, _, _, _, hcount2⟩ :=
    DestroyGLTextures_loop_spec gen (s1.m_loadedTextures.toNat + 1) 0 s1 gl1
      (by rw [hl1, hlen1]; exact hwf) (by omega)
  rw [hl1] at hcount2
  refine ⟨s1, s2, gl1, gl2, hrun1, ?_, by simpa using hcount1, hrun2,
    by simpa using hcount2, ?_⟩
  · intro i e hi hget
    exact hsub1 _ (hreg i e hi hget)
  · intro heq
    rw [heq] at hcount2
    omega

/-- C11 at `sampleScene` (handles 7, 9 and 4, all allocated) with the driver
`nextName`. -/
theorem C11_destroy_allocates_more_witness :
    ∃ (s1 s2 : SceneManager Int) (gl1 gl2 : GLState),
      DestroyGLTextures nextName sampleScene sampleGL = some (s1, gl1) ∧
      (∀ (i : Nat) (e : TEXTURE_INFO), (i : Int) < sampleScene.m_loadedTextures →
        sampleScene.m_textureIDs[i]? = some e → e.ID ∈ gl1.textureNames) ∧
      gl1.textureNames.length =
        sampleGL.textureNames.length + sampleScene.m_loadedTextures.toNat ∧
      DestroyGLTextures nextName s1 gl1 = some (s2, gl2) ∧
      gl2.textureNames.length =
        gl1.textureNames.length + sampleScene.m_loadedTextures.toNat ∧
      gl2 ≠ gl1 := by
  refine C11_destroy_allocates_more nextName sampleScene sampleGL (by decide) (by decide) ?_
  intro i e hi hget
  have hi3 : i < 3 := by
    have : sampleScene.m_loadedTextures = 3 := rfl
    omega
  interval_cases i <;> simp [sampleScene] at hget <;> subst hget <;> decide

/-- C12 fails as stated: starting from the empty registry, two successful
`CreateGLTexture` calls with the tag "wood" leave two registered entries with
that tag. -/
theorem C12_counterexample_duplicate_tag :
    ∃ (s : SceneManager Int) (gl : GLState),
      createAll allReadable nextName duplicateLoads emptyScene emptyGL = some (s, gl) ∧
      registeredTags s = ["wood", "wood"] ∧ ¬ (registeredTags s).Nodup := by
  obtain ⟨s, gl, hrun, htags, _, _⟩ :=
    createAll_spec allReadable nextName duplicateLoads (emptyScene : SceneManager Int)
      emptyGL (by decide) (by decide)
  have htags' : registeredTags s = ["wood", "wood"] := by
    rw [htags]
    decide
  refine ⟨s, gl, hrun, htags', ?_⟩
  rw [htags']
  decide

/-- C12, with the distinctness left to the caller: starting from the empty
registry, a sequence of `CreateGLTexture` calls that fits into the table runs to
its end and registers exactly the tags of its successful calls, in call order;
so no two registered entries carry the same tag exactly when the successful
calls were given pairwise distinct tags. -/
theorem C12_tags_follow_calls {F : Type} (stbi_load : String → Option Image)
    (gen : List Nat → Nat) (calls : List (String × String)) (s : SceneManager F)
    (gl : GLState) (hempty : s.m_loadedTextures = 0)
    (hfit : (successfulTags stbi_load calls).length ≤ s.m_textureIDs.length) :
    ∃ (s' : SceneManager F) (gl' : GLState),
      createAll stbi_load gen calls s gl = some (s', gl') ∧
      registeredTags s' = successfulTags stbi_load calls ∧
      ((registeredTags s').Nodup ↔ (successfulTags stbi_load calls).Nodup) := by
  obtain ⟨s', gl', hrun, htags, _, _⟩ :=
    createAll_spec stbi_load gen calls s gl (by omega) (by omega)
  rw [registeredTags_of_empty s hempty, List.nil_append] at htags
  exact ⟨s', gl', hrun, htags, by rw [htags]⟩

/-- C12 at the five loads of `LoadSceneTextures`, all files readable: the five
tags are registered and pairwise distinct. -/
theorem C12_tags_follow_calls_witness :
    (successfulTags allReadable sceneLoads).Nodup ∧
    ∃ (s' : SceneManager Int) (gl' : GLState),
      createAll allReadable nextName sceneLoads emptyScene emptyGL = some (s', gl') ∧
      registeredTags s' = successfulTags allReadable sceneLoads ∧
      ((registeredTags s').Nodup ↔ (successfulTags allReadable sceneLoads).Nodup) :=
  ⟨by decide,
   C12_tags_follow_calls allReadable nextName sceneLoads emptyScene emptyGL rfl (by decide)⟩

/-- C13 (what the code does): `CreateGLTexture` never compares
`m_loadedTextures` with the size of the table. Starting from the empty registry,
a load sequence with at most as many successful loads as the table has slots
ends with `m_loadedTextures` equal to that number; a sequence with more
successful loads has no defined result, because a call writes the slot just
past the end of the table. -/
theorem C13_load_count_unchecked {F : Type} (stbi_load : String → Option Image)
    (gen : List Nat → Nat) (calls : List (String × String)) (s : SceneManager F)
    (gl : GLState) (hempty : s.m_loadedTextures = 0) :
    ((successfulTags stbi_load calls).length ≤ s.m_textureIDs.length →
      ∃ (s' : SceneManager F) (gl' : GLState),
        createAll stbi_load gen calls s gl = some (s', gl') ∧
        s'.m_loadedTextures = ((successfulTags stbi_load calls).length : Int) ∧
        s'.m_textureIDs.length = s.m_textureIDs.length) ∧
    (s.m_textureIDs.length < (successfulTags stbi_load calls).length →
      createAll stbi_load gen calls s gl = none) := by
  constructor
  · intro hfit
    obtain ⟨s', gl', hrun, _, hcount, hlen⟩ :=
      createAll_spec stbi_load gen calls s gl (by omega) (by omega)
    exact ⟨s', gl', hrun, by rw [hcount, hempty, Int.zero_add], hlen⟩
  · intro hover
    exact createAll_overflow stbi_load gen calls s gl (by omega) (by omega) (by omega)

/-- C13 at the empty 16-slot registry: sixteen successful loads fill the table,
the seventeenth writes slot 16. -/
theorem C13_load_count_unchecked_witness :
    (∃ (s' : SceneManager Int) (gl' : GLState),
        createAll allReadable nextName (repeatedLoads 16) emptyScene emptyGL =
          some (s', gl') ∧
        s'.m_loadedTextures =
          ((successfulTags allReadable (repeatedLoads 16)).length : Int) ∧
        s'.m_textureIDs.length = (emptyScene : SceneManager Int).m_textureIDs.length) ∧
    (successfulTags allReadable (repeatedLoads 16)).length = 16 ∧
    (emptyScene : SceneManager Int).m_textureIDs.length = 16 ∧
    createAll allReadable nextName (repeatedLoads 17) (emptyScene : SceneManager Int)
      emptyGL = none :=
  ⟨(C13_load_count_unchecked allReadable nextName (repeatedLoads 16) emptyScene emptyGL
      rfl).1 (by decide),
   by decide, by decide,
   (C13_load_count_unchecked allReadable nextName (repeatedLoads 17) emptyScene emptyGL
      rfl).2 (by decide)⟩

/-- C15 (what the code does): on the empty registry with all five image files
readable, `LoadSceneTextures` registers the tags "street", "bmat", "wall",
"lamp" and "wood". `RenderScene` passes the tag "blackmat" to `SetShaderTexture`
53 times (decorative ring, lamp holder, 51 arm segments); that tag is not
registered and `FindTextureSlot` returns -1 for it. Running `RenderScene` after
`DefineObjectMaterials`, whatever the shader has recorded before (`sm0`, for
instance the writes of `SetupSceneLights`), writes the sampler 74 times, 53 of
them with the index -1. -/
theorem C15_blackmat_uploads_sentinel {F : Type} [Field F] (T : Trig F)
    (degrees : F → F) (uninit : OBJECT_MATERIAL F) (sm0 : ShaderManager F) :
    ∃ (s s' : SceneManager F) (gl : GLState) (sm' : ShaderManager F),
      LoadSceneTextures allReadable nextName (emptyScene : SceneManager F) emptyGL =
        some (s, gl) ∧
      registeredTags s = ["street", "bmat", "wall", "lamp", "wood"] ∧
      (textureTags (RenderScene T degrees)).count "blackmat" = 53 ∧
      FindTextureSlot s "blackmat" = some (-1) ∧
      runCalls T uninit (RenderScene T degrees)
        { DefineObjectMaterials s with m_pShaderManager := some sm0 } = some s' ∧
      s'.m_pShaderManager = some sm' ∧
      samplerWrites sm' = samplerWrites sm0 ++
        ([0, 2, 3, 1, 1, -1, -1] ++ List.replicate 51 (-1) ++
         [4, 4, 4, 4, 4, 1, 1, 1, 1, 1, 1, 1, 1, 1, 1, 4]) ∧
      ([0, 2, 3, 1, 1, -1, -1] ++ List.replicate 51 (-1) ++
         [4, 4, 4, 4, 4, 1, 1, 1, 1, 1, 1, 1, 1, 1, 1, (4 : Int)]).count (-1) = 53 := by
  obtain ⟨gl, hload⟩ := LoadSceneTextures_allReadable (F := F)
  obtain ⟨hstreet, hbmat, hwall, hlamp, hwood, hblack⟩ := loadedScene_slots (F := F)
  have hsame : FindTextureSlot
      { DefineObjectMaterials (loadedScene : SceneManager F) with
        m_pShaderManager := some sm0 } =
      FindTextureSlot (loadedScene : SceneManager F) :=
    funext fun tag => FindTextureSlot_congr _ _ tag rfl rfl
  obtain ⟨s', sm', hrun, hsm', _, _, hw⟩ :=
    runCalls_spec T uninit (RenderScene T degrees)
      { DefineObjectMaterials (loadedScene : SceneManager F) with
        m_pShaderManager := some sm0 } sm0 rfl
      (by simp [DefineObjectMaterials, loadedScene])
  have hwrites : samplerWrites sm' = samplerWrites sm0 ++
      ([0, 2, 3, 1, 1, -1, -1] ++ List.replicate 51 (-1) ++
       [4, 4, 4, 4, 4, 1, 1, 1, 1, 1, 1, 1, 1, 1, 1, 4]) := by
    rw [hw, hsame, RenderScene_textureTags, List.filterMap_append, List.filterMap_append,
      filterMap_replicate_some _ _ _ hblack]
    simp [List.filterMap_cons, hstreet, hbmat, hwall, hlamp, hwood, hblack]
  refine ⟨loadedScene, s', gl, sm', hload, ?_, ?_, hblack, hrun, hsm', hwrites, ?_⟩
  · simp [registeredTags, loadedScene]
  · rw [RenderScene_textureTags]
    decide
  · decide

end Scene3D
